import Mathlib

/-!
Verification development for the legal_dashboard scraping/rating core.

Shallow embedding of `app/services/scraping_service.py` and
`app/services/rating_service.py`.  Strings are modelled as `List Char`,
Python floats as `ℚ` (with `ℝ` only for the square root inside the
confidence computation), and `round(x, 3)` as decimal round-half-even.
Regular-expression primitives are embedded as executable functions on
`List Char`; every pattern in the source is a `\b(w1|...|wn)\b`
alternation of literal words.  For the word lists the source uses, two
matches can never overlap: a later match would have to start at a word
boundary inside an earlier one, which is impossible for the single-word
alternatives (all their characters are word characters) and does not
arise for the two space-containing alternatives (`بر اساس`, `مطابق با`,
whose trailing words are not alternatives themselves).  Counting match
positions therefore agrees exactly with `re.findall`, and `re.search`
succeeds iff that count is positive.
-/

/-- Whitespace characters recognised by Python's `\s`, `str.strip` and
`str.split` for the ASCII range used by the embedded content. -/
def isWsB (c : Char) : Bool :=
  c = ' ' || c = '\t' || c = '\n' || c = '\r' || c = '\x0b' || c = '\x0c'

/-- Word characters for `\b` boundaries: ASCII alphanumerics, underscore,
and the Arabic/Persian block U+0600–U+06FF used by the source's patterns. -/
def wordCharB (c : Char) : Bool :=
  ('a' ≤ c && c ≤ 'z') || ('A' ≤ c && c ≤ 'Z') || ('0' ≤ c && c ≤ '9') ||
  c = '_' || (0x600 ≤ c.toNat && c.toNat ≤ 0x6FF)

/-- Case-insensitive character comparison (`re.IGNORECASE`); Persian has
no case, ASCII is lowered. -/
def ciEq (a b : Char) : Bool := a.toLower = b.toLower

/-- `w` matches case-insensitively at the head of `s`. -/
def matchesAtCI : List Char → List Char → Bool
  | [], _ => true
  | _ :: _, [] => false
  | a :: w, b :: s => ciEq a b && matchesAtCI w s

/-- The character after a match of length `n` is a word boundary
(end of string or a non-word character): the trailing `\b`. -/
def trailingOk (n : ℕ) (s : List Char) : Bool :=
  match s.drop n with
  | [] => true
  | c :: _ => !(wordCharB c)

/-- Some alternative of the pattern matches at the head of `s`, with the
trailing word boundary.  `prevW` says whether the previous character was
a word character (leading `\b`). -/
def patMatchHere (alts : List (List Char)) (prevW : Bool) (s : List Char) : Bool :=
  !prevW && alts.any (fun w => !w.isEmpty && matchesAtCI w s && trailingOk w.length s)

/-- Number of positions at which the alternation matches with both word
boundaries; equals the `re.findall` count for `\b(...)\b` word patterns
because such matches cannot overlap. -/
def patCountAux (alts : List (List Char)) : Bool → List Char → ℕ
  | _, [] => 0
  | prevW, c :: rest =>
    (if patMatchHere alts prevW (c :: rest) then 1 else 0) +
      patCountAux alts (wordCharB c) rest

/-- `len(re.findall(r'\b(w1|...|wn)\b', content, re.IGNORECASE))`. -/
def patCount (alts : List (List Char)) (content : List Char) : ℕ :=
  patCountAux alts false content

/-- `re.search(r'\b(w1|...|wn)\b', content, re.IGNORECASE) is not None`. -/
def patSearchB (alts : List (List Char)) (content : List Char) : Bool :=
  decide (0 < patCount alts content)

/-- Python's `sub in s` substring test. -/
def containsSub (sub : List Char) : List Char → Bool
  | [] => sub.isEmpty
  | c :: rest => sub.isPrefixOf (c :: rest) || containsSub sub rest

/-- Python's `str.strip()`. -/
def stripChars (s : List Char) : List Char :=
  ((s.dropWhile isWsB).reverse.dropWhile isWsB).reverse

/-- Helper for `collapseWs`: the Bool records whether the previous kept
character position was inside a whitespace run. -/
def collapseWsAux : List Char → Bool → List Char
  | [], _ => []
  | c :: rest, prevWs =>
    if isWsB c then
      (if prevWs then collapseWsAux rest true else ' ' :: collapseWsAux rest true)
    else c :: collapseWsAux rest false

/-- `re.sub(r'\s+', ' ', content).strip()` from `_extract_content_by_strategy`. -/
def collapseWs (s : List Char) : List Char :=
  stripChars (collapseWsAux s false)

/-- `re.split(r'[.!?]', content)`: pieces between sentence delimiters,
empty pieces included; always at least one piece. -/
def splitDelims : List Char → List (List Char)
  | [] => [[]]
  | c :: rest =>
    if c = '.' || c = '!' || c = '?' then
      [] :: splitDelims rest
    else
      match splitDelims rest with
      | [] => [[c]]
      | p :: ps => (c :: p) :: ps

/-- `len(text.split())`: number of maximal non-whitespace runs. -/
def countWordsAux : List Char → Bool → ℕ
  | [], _ => 0
  | c :: rest, inWord =>
    if isWsB c then countWordsAux rest false
    else (if inWord then 0 else 1) + countWordsAux rest true

/-- `_count_words` of the scraping service. -/
def countWords (s : List Char) : ℕ := countWordsAux s false

/-- Helper for `runCount`: `prev` is the current run's character, `runLen`
its length so far. -/
def runCountAux : Option Char → ℕ → List Char → ℕ
  | _, runLen, [] => if 3 ≤ runLen then 1 else 0
  | prev, runLen, c :: rest =>
    if prev = some c then runCountAux (some c) (runLen + 1) rest
    else (if 3 ≤ runLen then 1 else 0) + runCountAux (some c) 1 rest

/-- `len(re.findall(r'(.)\1{2,}', content))`: number of maximal runs of a
repeated character of length at least 3 (the greedy match consumes each
whole run). -/
def runCount (s : List Char) : ℕ := runCountAux none 0 s

/-- `len(re.findall(r'[؀-ۿ]', content))`. -/
def persianCount (s : List Char) : ℕ :=
  s.countP (fun c => 0x600 ≤ c.toNat && c.toNat ≤ 0x6FF)

/-- `len(re.findall(r'[a-zA-Z]', content))`. -/
def englishCount (s : List Char) : ℕ :=
  s.countP (fun c => ('a' ≤ c && c ≤ 'z') || ('A' ≤ c && c ≤ 'Z'))

/-- `re.search(r'\n\s*\n', content) is not None`: two newlines separated
only by whitespace. -/
def hasParaBreak : List Char → Bool
  | [] => false
  | c :: rest =>
    (c = '\n' && (rest.takeWhile isWsB).any (· = '\n')) || hasParaBreak rest

/-- Python `str.lower()` (ASCII part; Persian characters have no case). -/
def lowerStr (s : List Char) : List Char := s.map Char.toLower

/-! ## Rating service (`app/services/rating_service.py`) -/

/-- `credible_domains` of `RatingService.__init__`. -/
def credibleDomains : List (List Char) :=
  ["gov.ir", "court.gov.ir", "justice.gov.ir", "mizanonline.ir",
   "irna.ir", "isna.ir", "mehrnews.com", "tasnimnews.com",
   "farsnews.ir", "entekhab.ir", "khabaronline.ir"].map String.data

/-- `legal_patterns['contract']`. -/
def contractPat : List (List Char) :=
  ["قرارداد", "contract", "agreement", "عهدنامه"].map String.data

/-- `legal_patterns['legal_document']`. -/
def legalDocumentPat : List (List Char) :=
  ["سند", "document", "legal", "مدرک"].map String.data

/-- `legal_patterns['court_case']`. -/
def courtCasePat : List (List Char) :=
  ["پرونده", "case", "court", "دادگاه"].map String.data

/-- `legal_patterns['law_article']`. -/
def lawArticlePat : List (List Char) :=
  ["ماده", "article", "law", "قانون"].map String.data

/-- `legal_patterns['legal_notice']`. -/
def legalNoticePat : List (List Char) :=
  ["اعلان", "notice", "announcement", "آگهی"].map String.data

/-- `legal_patterns['legal_decision']`. -/
def legalDecisionPat : List (List Char) :=
  ["رای", "decision", "verdict", "حکم"].map String.data

/-- `legal_patterns['legal_procedure']`. -/
def legalProcedurePat : List (List Char) :=
  ["رویه", "procedure", "process", "فرآیند"].map String.data

/-- `legal_patterns.values()` in insertion order. -/
def legalPatterns : List (List (List Char)) :=
  [contractPat, legalDocumentPat, courtCasePat, lawArticlePat,
   legalNoticePat, legalDecisionPat, legalProcedurePat]

/-- `quality_indicators['structure']`. -/
def qualityStructurePat : List (List Char) :=
  ["فصل", "بخش", "ماده", "تبصره", "بند"].map String.data

/-- `quality_indicators['formality']`. -/
def formalityPat : List (List Char) :=
  ["مطابق", "طبق", "بر اساس", "مطابق با"].map String.data

/-- `quality_indicators['legal_terms']`. -/
def legalTermsPat : List (List Char) :=
  ["حقوقی", "قانونی", "قضایی", "دادگستری"].map String.data

/-- `quality_indicators['official_language']`. -/
def officialLanguagePat : List (List Char) :=
  ["دولت", "وزارت", "سازمان", "اداره"].map String.data

/-- `quality_indicators.values()` in insertion order. -/
def qualityIndicators : List (List (List Char)) :=
  [qualityStructurePat, formalityPat, legalTermsPat, officialLanguagePat]

/-- The bare structure regex of `_evaluate_content_completeness`:
`r'\b(فصل|بخش|ماده|تبصره)\b'`. -/
def structurePat4 : List (List Char) :=
  ["فصل", "بخش", "ماده", "تبصره"].map String.data

/-- The official-term regex of `_evaluate_content_relevance`:
`r'\b(دولت|وزارت|سازمان|اداره|قانون|حقوق)\b'`. -/
def officialTermsPat : List (List Char) :=
  ["دولت", "وزارت", "سازمان", "اداره", "قانون", "حقوق"].map String.data

/-- The structure regex of `_evaluate_technical_quality`:
`r'\b(ماده|بند|تبصره|فصل)\b'`. -/
def techStructurePat : List (List Char) :=
  ["ماده", "بند", "تبصره", "فصل"].map String.data

/-- The official-indicator substrings checked against the lowered metadata
title in `_evaluate_source_credibility`. -/
def officialTitleIndicators : List (List Char) :=
  ["دولت", "وزارت", "سازمان", "اداره"].map String.data

/-- `RatingConfig` with its default weights and thresholds. -/
structure RatingConfig where
  source_credibility_weight : ℚ := 1/4
  content_completeness_weight : ℚ := 1/4
  ocr_accuracy_weight : ℚ := 1/5
  data_freshness_weight : ℚ := 3/20
  content_relevance_weight : ℚ := 1/10
  technical_quality_weight : ℚ := 1/20
  excellent_threshold : ℚ := 4/5
  good_threshold : ℚ := 3/5
  average_threshold : ℚ := 2/5
  poor_threshold : ℚ := 1/5

/-- The configuration a `RatingService()` constructed without an explicit
config uses: `RatingConfig()` with all defaults. -/
def defaultRatingConfig : RatingConfig := {}

/-- Python's `min(score, 1.0)` on the rational model, written as an
explicit comparison so that it evaluates by kernel reduction. -/
def minQ (a b : ℚ) : ℚ := if a ≤ b then a else b

/-- `_evaluate_source_credibility(domain, url, metadata)`.  The metadata
dict enters only through `metadata.get('title', '')` and its truthiness,
modelled by `metaTitle` and `metaSize`. -/
def evalSourceCredibility (domain url metaTitle : List Char) (metaSize : ℕ) : ℚ :=
  minQ ((if domain ∈ credibleDomains then (2 : ℚ)/5 else 0) +
    (if containsSub ".gov.".data domain || ".gov.ir".data.isSuffixOf domain then (3 : ℚ)/10 else 0) +
    (if containsSub ".edu.".data domain || ".ac.ir".data.isSuffixOf domain then (1 : ℚ)/5 else 0) +
    (if "https://".data.isPrefixOf url then (1 : ℚ)/10 else 0) +
    (if metaSize ≠ 0 ∧
      officialTitleIndicators.any (fun w => containsSub w (lowerStr metaTitle)) then (1 : ℚ)/5 else 0)) 1

/-- `_evaluate_content_completeness(content, title, word_count)`; the
`title` argument is unused in the source body. -/
def evalContentCompleteness (content title : List Char) (wordCount : ℕ) : ℚ :=
  minQ ((if 500 ≤ wordCount then (3 : ℚ)/10
      else if 200 ≤ wordCount then (1 : ℚ)/5
      else if 100 ≤ wordCount then (1 : ℚ)/10
      else 0) +
    (if patSearchB structurePat4 content then (1 : ℚ)/5 else 0) +
    (if 3 ≤ legalPatterns.countP (fun p => patSearchB p content) then (3 : ℚ)/10
      else if 1 ≤ legalPatterns.countP (fun p => patSearchB p content) then (1 : ℚ)/5
      else 0) +
    (if 2 ≤ qualityIndicators.countP (fun p => patSearchB p content) then (1 : ℚ)/5 else 0)) 1

/-- The local `ocr_errors` value of `_evaluate_ocr_accuracy`:
`repeated_chars / total_chars`, left `0` for empty content. -/
def ocrErrorsQ (content : List Char) : ℚ :=
  if 0 < content.length then (runCount content : ℚ) / (content.length : ℚ) else 0

/-- The `proper_sentences / len(sentences)` ratio of `_evaluate_ocr_accuracy`. -/
def sentenceQuality (content : List Char) : ℚ :=
  ((splitDelims content).countP (fun p => decide (10 < (stripChars p).length)) : ℚ) /
    ((splitDelims content).length : ℚ)

/-- `_evaluate_ocr_accuracy(content, language)`; `language` is unused in
the source body.  The guard `if len(sentences) > 0` is always true since
`re.split` returns at least one piece, so the sentence-quality term is
added unconditionally. -/
def evalOcrAccuracy (content language : List Char) : ℚ :=
  minQ ((if 0 < persianCount content ∧ 0 < englishCount content then
      (if (7 : ℚ)/10 < (persianCount content : ℚ) /
          ((persianCount content : ℚ) + (englishCount content : ℚ)) then (3 : ℚ)/10
        else (1 : ℚ)/10)
      else 0) +
    sentenceQuality content * (3/10) +
    (if ocrErrorsQ content < 1/100 then (1 : ℚ)/5
      else if ocrErrorsQ content < 1/20 then (1 : ℚ)/10
      else 0) +
    (if hasParaBreak content then (1 : ℚ)/10 else 0)) 1

/-- The age-bucket step function of `_evaluate_data_freshness`. -/
def freshnessBucket (ageDays : ℤ) : ℚ :=
  if ageDays ≤ 30 then 1
  else if ageDays ≤ 90 then 4/5
  else if ageDays ≤ 365 then 3/5
  else if ageDays ≤ 1095 then 2/5
  else 1/5

/-- The `timestamp` argument of `_evaluate_data_freshness`: a string that
`datetime.fromisoformat` parses to an instant (`str (some t)`, seconds),
a string it rejects (`str none`; the inner `except` substitutes
`datetime.now(utc)`), an aware datetime object (`dt`), or any value for
which the age computation itself raises (`malformed`; the outer `except`
returns the 0.5 default). -/
inductive TimestampField where
  | str (parsed : Option ℤ)
  | dt (t : ℤ)
  | malformed
deriving DecidableEq

/-- `_evaluate_data_freshness(timestamp, metadata)`.  `now` is the value
of `datetime.now(timezone.utc)` in seconds; `timedelta.days` is floor
division of the difference by 86400. -/
def evalDataFreshness (timestamp : TimestampField) (now : ℤ) : ℚ :=
  match timestamp with
  | .str parsed =>
    let itemTime := parsed.getD now
    freshnessBucket (Int.fdiv (now - itemTime) 86400)
  | .dt t => freshnessBucket (Int.fdiv (now - t) 86400)
  | .malformed => 1/2

/-- The `legal_terms` total of `_evaluate_content_relevance`: the summed
`re.findall` counts over all legal patterns. -/
def legalTermsTotal (content : List Char) : ℕ :=
  (legalPatterns.map (fun p => patCount p content)).sum

/-- `_evaluate_content_relevance(content, title, strategy)`; `strategy`
is unused in the source body. -/

def evalContentRelevance (content title : List Char) : ℚ :=
  minQ ((if 10 ≤ legalTermsTotal content then (2 : ℚ)/5
      else if 5 ≤ legalTermsTotal content then (3 : ℚ)/10
      else if 2 ≤ legalTermsTotal content then (1 : ℚ)/5
      else if 1 ≤ legalTermsTotal content then (1 : ℚ)/10
      else 0) +
    (if 1 ≤ legalPatterns.countP (fun p => patSearchB p title) then (3 : ℚ)/10 else 0) +
    (if 3 ≤ patCount officialTermsPat content then (3 : ℚ)/10
      else if 1 ≤ patCount officialTermsPat content then (1 : ℚ)/10
      else 0)) 1

/-- The `persian_ratio` of `_evaluate_technical_quality`:
`persian_chars / max(len(content), 1)`. -/
def persianShareQ (content : List Char) : ℚ :=
  (persianCount content : ℚ) / ((max content.length 1 : ℕ) : ℚ)

/-- `_evaluate_technical_quality(content, metadata)`; the metadata dict
enters only through `len(metadata)` (`metaSize`).  `metadata and
len(metadata) >= 3` reduces to `3 ≤ metaSize`. -/

def evalTechnicalQuality (content : List Char) (metaSize : ℕ) : ℚ :=
  minQ ((if patSearchB techStructurePat content then (3 : ℚ)/10 else 0) +
    (if containsSub ['\n', '\n'] content then (1 : ℚ)/5 else 0) +
    (if 3/10 ≤ persianShareQ content ∧ persianShareQ content ≤ 9/10 then (1 : ℚ)/5 else 0) +
    (if 3 ≤ metaSize then (1 : ℚ)/10 else 0) +
    (if 200 ≤ content.length then (1 : ℚ)/5 else 0)) 1

/-- `np.mean` over the criteria scores. -/
def meanQ (l : List ℚ) : ℚ := l.sum / (l.length : ℚ)

/-- The variance computed inside `_calculate_confidence`. -/
def varianceQ (l : List ℚ) : ℚ :=
  (l.map (fun s => (s - meanQ l) ^ 2)).sum / (l.length : ℚ)

/-- `np.sqrt(variance)`: the standard deviation of the criteria scores. -/
noncomputable def stddevR (l : List ℚ) : ℝ := Real.sqrt ((varianceQ l : ℚ) : ℝ)

/-- `_calculate_confidence(criteria_scores)`: `0.0` for an empty score
dict, otherwise `max(0.5, 1.0 - std_dev)`. -/
noncomputable def calcConfidence (l : List ℚ) : ℝ :=
  if l = [] then 0 else max (1/2) (1 - stddevR l)

/-- `RatingLevel`. -/
inductive RatingLevelE where
  | excellent
  | good
  | average
  | poor
  | unrated
deriving DecidableEq, Repr

/-- `_determine_rating_level(overall_score)` against the configured
thresholds. -/
def determineRatingLevel (cfg : RatingConfig) (overall : ℚ) : RatingLevelE :=
  if cfg.excellent_threshold ≤ overall then .excellent
  else if cfg.good_threshold ≤ overall then .good
  else if cfg.average_threshold ≤ overall then .average
  else if cfg.poor_threshold ≤ overall then .poor
  else .unrated

/-- Round-half-even to an integer, the tie rule of Python's `round`. -/
def roundHalfEven (x : ℚ) : ℤ :=
  if x - ⌊x⌋ < 1/2 then ⌊x⌋
  else if 1/2 < x - ⌊x⌋ then ⌊x⌋ + 1
  else if ⌊x⌋ % 2 = 0 then ⌊x⌋
  else ⌊x⌋ + 1

/-- Python's `round(x, 3)` on the rational model of a float. -/
def round3 (x : ℚ) : ℚ := ((roundHalfEven (1000 * x) : ℤ) : ℚ) / 1000

/-- The fields of `item_data` that `rate_item` reads (with the defaults
of the `.get` calls).  The metadata dict enters the evaluators only
through `metadata.get('title', '')` (`metaTitle`) and `len(metadata)`
(`metaSize`). -/
structure ItemData where
  id : String
  url : List Char
  title : List Char
  content : List Char
  metaTitle : List Char
  metaSize : ℕ
  timestamp : TimestampField
  domain : List Char
  word_count : ℕ
  language : List Char
  strategy_used : String
deriving DecidableEq

/-- The six criteria scores computed by `rate_item`, in the insertion
order of its `criteria_scores` dict. -/
def rawCriteriaScores (item : ItemData) (now : ℤ) : List ℚ :=
  [evalSourceCredibility item.domain item.url item.metaTitle item.metaSize,
   evalContentCompleteness item.content item.title item.word_count,
   evalOcrAccuracy item.content item.language,
   evalDataFreshness item.timestamp now,
   evalContentRelevance item.content item.title,
   evalTechnicalQuality item.content item.metaSize]

/-- The `RatingResult` built by `rate_item`, together with the unrounded
values it goes on to use: `overall_score` and `criteria_scores` are the
rounded fields of the returned result, `rawOverall` is the local
`overall_score` variable passed to `_update_item_rating`, and
`rawCriteria` the unrounded scores (the confidence input).  The result's
real-valued confidence field is `resultConfidence` below, kept separate
so that the rest stays executable. -/
structure RatingOutcome where
  item_id : String
  overall_score : ℚ
  criteria_scores : List ℚ
  rating_level : RatingLevelE
  evaluator : String
  rawCriteria : List ℚ
  rawOverall : ℚ
deriving DecidableEq

/-- `rate_item(item_data, evaluator)`: evaluate the six criteria, form
the weighted overall score, classify it (on the unrounded value), and
round the reported scores to 3 decimals. -/
def rateItem (cfg : RatingConfig) (item : ItemData) (now : ℤ)
    (evaluator : String) : RatingOutcome :=
  let source_credibility := evalSourceCredibility item.domain item.url item.metaTitle item.metaSize
  let content_completeness := evalContentCompleteness item.content item.title item.word_count
  let ocr_accuracy := evalOcrAccuracy item.content item.language
  let data_freshness := evalDataFreshness item.timestamp now
  let content_relevance := evalContentRelevance item.content item.title
  let technical_quality := evalTechnicalQuality item.content item.metaSize
  let criteria := [source_credibility, content_completeness, ocr_accuracy,
                   data_freshness, content_relevance, technical_quality]
  let overallRaw :=
    source_credibility * cfg.source_credibility_weight +
    content_completeness * cfg.content_completeness_weight +
    ocr_accuracy * cfg.ocr_accuracy_weight +
    data_freshness * cfg.data_freshness_weight +
    content_relevance * cfg.content_relevance_weight +
    technical_quality * cfg.technical_quality_weight
  { item_id := item.id
    overall_score := round3 overallRaw
    criteria_scores := criteria.map round3
    rating_level := determineRatingLevel cfg overallRaw
    evaluator := evaluator
    rawCriteria := criteria
    rawOverall := overallRaw }

/-- Round-half-even on the real model of a float. -/
noncomputable def roundHalfEvenR (x : ℝ) : ℤ :=
  open Classical in
  if x - ⌊x⌋ < 1/2 then ⌊x⌋
  else if 1/2 < x - ⌊x⌋ then ⌊x⌋ + 1
  else if ⌊x⌋ % 2 = 0 then ⌊x⌋
  else ⌊x⌋ + 1

/-- Python's `round(x, 3)` on a real value. -/
noncomputable def round3R (x : ℝ) : ℝ := ((roundHalfEvenR (1000 * x) : ℤ) : ℝ) / 1000

/-- The `confidence` field of the `RatingResult` returned by `rate_item`:
`round(self._calculate_confidence(criteria_scores), 3)`. -/
noncomputable def resultConfidence (item : ItemData) (now : ℤ) : ℝ :=
  round3R (calcConfidence (rawCriteriaScores item now))

/-- A row of the `rating_history` table. -/
structure RatingHistoryEntry where
  item_id : String
  old_score : ℚ
  new_score : ℚ
  change_reason : String
  evaluator : String
deriving DecidableEq

/-- The observable effect of `_update_item_rating(item_id, rating_score)`
on the stored item and the history table. -/
structure UpdateResult where
  rating_score : ℚ
  processing_status : String
  history : List RatingHistoryEntry
deriving DecidableEq

/-- `_update_item_rating(item_id, rating_score)`: `oldScore` is the
`SELECT rating_score` result (`none` when the row is missing, in which
case `old_score` falls back to `0.0`); the item's score is set to
`rating_score`, its status to `'rated'`, and a history row is appended
iff `abs(old_score - rating_score) > 0.01`. -/
def updateItemRating (itemId : String) (oldScore : Option ℚ) (ratingScore : ℚ)
    (history : List RatingHistoryEntry) : UpdateResult :=
  let old := oldScore.getD 0
  { rating_score := ratingScore
    processing_status := "rated"
    history :=
      if 1/100 < |old - ratingScore| then
        history ++ [⟨itemId, old, ratingScore, "Auto re-evaluation", "auto"⟩]
      else history }

/-- `rate_item` together with its `_update_item_rating` side effect: the
update is invoked with the local (unrounded) `overall_score`, not the
rounded field of the returned result. -/
def rateItemAndUpdate (cfg : RatingConfig) (item : ItemData) (now : ℤ)
    (evaluator : String) (oldScore : Option ℚ)
    (history : List RatingHistoryEntry) : RatingOutcome × UpdateResult :=
  let r := rateItem cfg item now evaluator
  (r, updateItemRating item.id oldScore r.rawOverall history)

/-- `re_evaluate_item(item_id, evaluator)`: reload the stored item
(`none` when the row is missing) and re-run `rate_item` on it. -/
def reEvaluateItem (cfg : RatingConfig) (stored : Option ItemData) (now : ℤ)
    (evaluator : String) : Option RatingOutcome :=
  stored.map (fun item => rateItem cfg item now evaluator)

/-! ## Scraping service (`app/services/scraping_service.py`) -/

/-- Helper for `extractDomain`: find `"://"` and take the authority up
to the next `/`. -/
def extractDomainAux : List Char → List Char
  | [] => []
  | c :: rest =>
    if "://".data.isPrefixOf (c :: rest) then
      ((c :: rest).drop 3).takeWhile (· ≠ '/')
    else extractDomainAux rest

/-- `_extract_domain(url)`: `urlparse(url).netloc`, modelled as the text
between `"://"` and the next `/` (empty when the url has no scheme
separator, as `urlparse` then yields an empty netloc). -/
def extractDomain (url : List Char) : List Char :=
  extractDomainAux url

/-- `_detect_language(text)`: Persian when more than 30% of the
characters are in the Persian block, else English. -/
def detectLanguage (text : List Char) : List Char :=
  if (text.length : ℚ) * (3/10) < (persianCount text : ℚ) then "persian".data
  else "english".data

/-- `_calculate_content_hash(content)` is an MD5 digest, modelled by an
abstract content-determined stand-in (the claims never inspect it). -/
def contentHashModel (content : List Char) : List Char := content

/-- The parsed, script/style/nav/header/footer/aside-stripped document a
strategy extracts from: the `<title>` text, `soup.select(sel)` joined
element text per selector (`none` when no element matches; `some`
even when the joined text is empty), and the `<body>` text.  The HTML
parser itself is an external collaborator. -/
structure HtmlDoc where
  titleText : Option (List Char)
  selectText : List (String × List Char)
  bodyText : Option (List Char)

/-- The selector priority list of `_extract_content_by_strategy` for the
`LEGAL_DOCUMENTS` strategy. -/
def legalSelectors : List String :=
  ["article", ".legal-content", ".document-content",
   ".legal-text", ".document-text", "main"]

/-- Selector list for `NEWS_ARTICLES`. -/
def newsSelectors : List String :=
  ["article", ".article-content", ".news-content",
   ".story-content", ".post-content", "main"]

/-- Selector list for `ACADEMIC_PAPERS`. -/
def academicSelectors : List String :=
  [".abstract", ".content", ".paper-content",
   "article", ".research-content", "main"]

/-- The first selector of the priority list matched by the document:
`for selector in selectors: elements = soup.select(selector); if
elements: content = joined text; break`. -/
def firstSelectorText (doc : HtmlDoc) : List String → Option (List Char)
  | [] => none
  | sel :: rest =>
    match doc.selectText.lookup sel with
    | some t => some t
    | none => firstSelectorText doc rest

/-- The strategy-specific content before cleanup: selector priority list
with body fallback (also used when the matched elements' joined text is
empty, since `if not content:` then triggers), or plain body text for
`GENERAL`/`GOVERNMENT_SITES`/`CUSTOM`. -/
def strategyRawContent (doc : HtmlDoc) (strategy : String) : List Char :=
  let bodyFallback : List Char := (doc.bodyText.map stripChars).getD []
  let bySelectors (sels : List String) : List Char :=
    match firstSelectorText doc sels with
    | some t =>
      if t = [] then bodyFallback else t
    | none => bodyFallback
  if strategy = "legal_documents" then bySelectors legalSelectors
  else if strategy = "news_articles" then bySelectors newsSelectors
  else if strategy = "academic_papers" then bySelectors academicSelectors
  else bodyFallback

/-- `_extract_content_by_strategy(soup, strategy)`: title from the
`<title>` element (stripped), strategy-specific content, whitespace
collapsed. -/
def extractContentByStrategy (doc : HtmlDoc) (strategy : String) :
    List Char × List Char :=
  let title := (doc.titleText.map stripChars).getD []
  let content := collapseWs (strategyRawContent doc strategy)
  (title, content)

/-- `ScrapedItem` as built by `scrape_url` (id and content hash are
abstract stand-ins for the MD5/timestamp-derived values). -/
structure ScrapedItem where
  id : List Char
  url : List Char
  title : List Char
  content : List Char
  timestamp : ℤ
  source_url : List Char
  rating_score : ℚ
  processing_status : String
  strategy_used : String
  content_hash : List Char
  word_count : ℕ
  language : List Char
  domain : List Char
deriving DecidableEq

/-- The response `scrape_url` observes for one URL: HTTP status, the
`content-type` header, and the parsed document.  The HTTP client is an
external collaborator. -/
structure HttpResponse where
  status : ℕ
  contentType : List Char
  doc : HtmlDoc

/-- `scrape_url(url, strategy, job_id)` on a response that arrived
without a transport exception: `None` for a status other than 200, for a
content type without `text/html`, and for extracted content empty or
shorter than 50 characters after stripping; otherwise the stored
`ScrapedItem` with derived metadata and status `completed`. -/
def scrapeUrl (resp : HttpResponse) (url : List Char) (strategy : String)
    (now : ℤ) : Option ScrapedItem :=
  if resp.status ≠ 200 then none
  else if ¬ (containsSub "text/html".data resp.contentType = true) then none
  else
    let tc := extractContentByStrategy resp.doc strategy
    let title := tc.1
    let content := tc.2
    if content = [] ∨ (stripChars content).length < 50 then none
    else
      some
        { id := contentHashModel url
          url := url
          title := if title = [] then "No Title".data else title
          content := content
          timestamp := now
          source_url := url
          rating_score := 0
          processing_status := "completed"
          strategy_used := strategy
          content_hash := contentHashModel content
          word_count := countWords content
          language := detectLanguage content
          domain := extractDomain url }

/-- The counters and status of a `ScrapingJob`. -/
structure ScrapingJob where
  job_id : String
  urls : List (List Char)
  strategy : String
  max_depth : ℕ
  delay_between_requests : ℚ
  timeout : ℕ
  status : String
  total_items : ℕ
  completed_items : ℕ
  failed_items : ℕ
deriving DecidableEq

/-- `start_scraping_job(urls, strategy, ..., delay)`: the registered job
before its background task runs; `total_items = len(urls)`, both
counters zero, status `pending`. -/
def startScrapingJob (jobId : String) (urls : List (List Char))
    (strategy : String) (maxDepth : ℕ) (delay : ℚ) : ScrapingJob :=
  { job_id := jobId
    urls := urls
    strategy := strategy
    max_depth := maxDepth
    delay_between_requests := delay
    timeout := 30
    status := "pending"
    total_items := urls.length
    completed_items := 0
    failed_items := 0 }

/-- What one iteration of the URL loop in `_execute_scraping_job`
observes: `scrape_url` returned an item, returned `None`, or the guarded
block raised (caught by the per-URL `except`). -/
inductive UrlOutcome where
  | ok (item : ScrapedItem)
  | noResult
  | error
deriving DecidableEq

/-- One iteration of the loop body: `completed_items += 1` when an item
came back, `failed_items += 1` on `None` or on a caught exception. -/
def applyOutcome (job : ScrapingJob) (o : UrlOutcome) : ScrapingJob :=
  match o with
  | .ok _ => { job with completed_items := job.completed_items + 1 }
  | .noResult => { job with failed_items := job.failed_items + 1 }
  | .error => { job with failed_items := job.failed_items + 1 }

/-- The `UrlOutcome` induced by a `scrape_url` return value. -/
def outcomeOfScrape (r : Option ScrapedItem) : UrlOutcome :=
  match r with
  | some item => .ok item
  | none => .noResult

/-- `_execute_scraping_job` when the loop runs to completion: status
`processing` while iterating, then the terminal `completed`. -/
def execScrapingJob (job : ScrapingJob) (outs : List UrlOutcome) : ScrapingJob :=
  let finished := outs.foldl applyOutcome { job with status := "processing" }
  { finished with status := "completed" }

/-- `_execute_scraping_job` when an exception escapes the per-URL guard
after `outs` URLs were processed: the outer `except` sets status
`failed` with the counters as they stand. -/
def execScrapingJobAborted (job : ScrapingJob) (outs : List UrlOutcome) : ScrapingJob :=
  let aborted := outs.foldl applyOutcome { job with status := "processing" }
  { aborted with status := "failed" }

/-- Every job state the background task ever exposes: the registered
state, the processing states after each URL, and the terminal state. -/
def execTrace (job : ScrapingJob) (outs : List UrlOutcome) : List ScrapingJob :=
  job :: outs.scanl applyOutcome { job with status := "processing" } ++
    [execScrapingJob job outs]

/-- The weight fields of a `RatingConfig`, in the order `rate_item`
applies them. -/
def ratingWeights (cfg : RatingConfig) : List ℚ :=
  [cfg.source_credibility_weight, cfg.content_completeness_weight,
   cfg.ocr_accuracy_weight, cfg.data_freshness_weight,
   cfg.content_relevance_weight, cfg.technical_quality_weight]

/-- Pointwise product sum of two score lists. -/
def dotQ : List ℚ → List ℚ → ℚ
  | a :: as, b :: bs => a * b + dotQ as bs
  | _, _ => 0

/-! ## Concrete inputs used by the claim theorems -/

/-- `n + 1` four-letter words separated by single spaces: the body text of
the valid legal page in the per-URL isolation scenario. -/
def wordsBlock : ℕ → List Char
  | 0 => ['w', 'o', 'r', 'd']
  | n + 1 => 'w' :: 'o' :: 'r' :: 'd' :: ' ' :: wordsBlock n

/-- A 1200-word page body. -/
def legalPageContent : List Char := wordsBlock 1199

/-- A response with HTTP status 404. -/
def page404 : HttpResponse :=
  { status := 404, contentType := "text/html".data,
    doc := { titleText := none, selectText := [], bodyText := some "irrelevant page".data } }

/-- A 200 HTML response whose `article` element holds 1200 words. -/
def pageGood : HttpResponse :=
  { status := 200, contentType := "text/html; charset=utf-8".data,
    doc := { titleText := some "Legal archive".data,
             selectText := [("article", legalPageContent)],
             bodyText := some legalPageContent } }

/-- A 200 HTML response whose extracted content is below 50 characters. -/
def pageShort : HttpResponse :=
  { status := 200, contentType := "text/html".data,
    doc := { titleText := some "Empty".data, selectText := [], bodyText := some "too tiny".data } }

/-- The three scenario URLs. -/
def c8Urls : List (List Char) :=
  ["http://a.example/x".data, "http://b.example/x".data, "http://c.example/x".data]

/-- The scenario job over the three URLs. -/
def c8Job : ScrapingJob := startScrapingJob "job-a" c8Urls "legal_documents" 1 1

/-- The loop outcomes the scenario responses induce. -/
def c8Outs : List UrlOutcome :=
  [outcomeOfScrape (scrapeUrl page404 "http://a.example/x".data "legal_documents" 0),
   outcomeOfScrape (scrapeUrl pageGood "http://b.example/x".data "legal_documents" 0),
   outcomeOfScrape (scrapeUrl pageShort "http://c.example/x".data "legal_documents" 0)]

/-- An item whose OCR-accuracy score is `0.2 + 0.3/7`: seven sentence
pieces, exactly one over ten characters; the other criteria scores are
`0.1` (https), `0`, `1` (fresh), `0`, `0`. -/
def c3Item : ItemData :=
  { id := "c3", url := "https://example.com/x".data, title := "t".data,
    content := "abcdefgh ijk.a.b.c.d.e.f".data, metaTitle := [], metaSize := 0,
    timestamp := .str (some 0), domain := "example.com".data, word_count := 0,
    language := "english".data, strategy_used := "general" }

/-- A stored item with empty content and a parsed timestamp at instant 0:
only the OCR-error bonus (`0.2`) and the freshness score are non-zero. -/
def c7Item : ItemData :=
  { id := "c7", url := [], title := [], content := [], metaTitle := [], metaSize := 0,
    timestamp := .str (some 0), domain := [], word_count := 0,
    language := "english".data, strategy_used := "general" }

/-- A ten-word item matching scenario C's hypotheses (unknown http domain,
no pattern matches), freshly scraped and with well-formed sentences. -/
def c9Item : ItemData :=
  { id := "c9", url := "http://example.com/p".data, title := "hello".data,
    content := "ab cd ef gh ij klmnopqrst. uv wx yz abcdefghij".data,
    metaTitle := [], metaSize := 0,
    timestamp := .str (some 0), domain := "example.com".data, word_count := 10,
    language := "english".data, strategy_used := "general" }

/-- A ten-word scenario-C item that is over three years old when rated. -/
def c9wItem : ItemData :=
  { id := "c9w", url := "http://example.com/p".data, title := "hello".data,
    content := "ab cd ef gh ij kl mn op qr st".data,
    metaTitle := [], metaSize := 0,
    timestamp := .str (some 0), domain := "example.com".data, word_count := 10,
    language := "english".data, strategy_used := "general" }

/-- An item whose raw overall score is `0.2225`, exactly half a thousandth
from its 3-decimal rounding (eight sentence pieces, one proper). -/
def c10Item : ItemData :=
  { id := "c10", url := "https://example.com/x".data, title := "t".data,
    content := "abcdefgh ijk.a.b.c.d.e.f.g".data, metaTitle := [], metaSize := 0,
    timestamp := .str (some 0), domain := "example.com".data, word_count := 0,
    language := "english".data, strategy_used := "general" }

/-! ## Helper lemmas -/

theorem minQ_eq_min (a b : ℚ) : minQ a b = min a b := by
  unfold minQ
  rw [min_def]

theorem qite_nonneg {c : Prop} [Decidable c] {a b : ℚ} (ha : 0 ≤ a) (hb : 0 ≤ b) :
    0 ≤ if c then a else b := by
  split_ifs <;> assumption

theorem qite_le {c : Prop} [Decidable c] {a b m : ℚ} (ha : a ≤ m) (hb : b ≤ m) :
    (if c then a else b) ≤ m := by
  split_ifs <;> assumption

theorem roundHalfEven_abs_le (y : ℚ) : |((roundHalfEven y : ℤ) : ℚ) - y| ≤ 1/2 := by
  have hfl : ((⌊y⌋ : ℤ) : ℚ) ≤ y := Int.floor_le y
  have hfu : y < ((⌊y⌋ : ℤ) : ℚ) + 1 := Int.lt_floor_add_one y
  unfold roundHalfEven
  split_ifs with h1 h2 h3 <;> rw [abs_le] <;> push_cast <;>
    constructor <;> linarith

theorem round3_abs_le (x : ℚ) : |round3 x - x| ≤ 1/2000 := by
  have h := roundHalfEven_abs_le (1000 * x)
  unfold round3
  rw [abs_le] at h ⊢
  constructor <;> [linarith [h.1]; linarith [h.2]]

theorem evalSourceCredibility_range (domain url metaTitle : List Char) (metaSize : ℕ) :
    0 ≤ evalSourceCredibility domain url metaTitle metaSize ∧
      evalSourceCredibility domain url metaTitle metaSize ≤ 1 := by
  rw [evalSourceCredibility, minQ_eq_min]
  refine ⟨le_min ?_ (by norm_num), min_le_right _ _⟩
  split_ifs <;> norm_num

theorem evalContentCompleteness_range (content title : List Char) (wordCount : ℕ) :
    0 ≤ evalContentCompleteness content title wordCount ∧
      evalContentCompleteness content title wordCount ≤ 1 := by
  rw [evalContentCompleteness, minQ_eq_min]
  refine ⟨le_min ?_ (by norm_num), min_le_right _ _⟩
  split_ifs <;> norm_num

theorem sentenceQuality_nonneg (content : List Char) : 0 ≤ sentenceQuality content := by
  unfold sentenceQuality
  positivity

theorem evalOcrAccuracy_range (content language : List Char) :
    0 ≤ evalOcrAccuracy content language ∧ evalOcrAccuracy content language ≤ 1 := by
  rw [evalOcrAccuracy, minQ_eq_min]
  refine ⟨le_min ?_ (by norm_num), min_le_right _ _⟩
  have hq3 : 0 ≤ sentenceQuality content * (3/10) :=
    mul_nonneg (sentenceQuality_nonneg content) (by norm_num)
  split_ifs <;> linarith

theorem freshnessBucket_range (a : ℤ) :
    0 ≤ freshnessBucket a ∧ freshnessBucket a ≤ 1 := by
  unfold freshnessBucket
  split_ifs <;> norm_num

theorem evalDataFreshness_range (t : TimestampField) (now : ℤ) :
    0 ≤ evalDataFreshness t now ∧ evalDataFreshness t now ≤ 1 := by
  cases t with
  | str parsed =>
    cases parsed with
    | none => exact freshnessBucket_range _
    | some x => exact freshnessBucket_range _
  | dt x => exact freshnessBucket_range _
  | malformed =>
    simp only [evalDataFreshness]
    norm_num

theorem evalContentRelevance_range (content title : List Char) :
    0 ≤ evalContentRelevance content title ∧ evalContentRelevance content title ≤ 1 := by
  rw [evalContentRelevance, minQ_eq_min]
  refine ⟨le_min ?_ (by norm_num), min_le_right _ _⟩
  split_ifs <;> norm_num

theorem evalTechnicalQuality_range (content : List Char) (metaSize : ℕ) :
    0 ≤ evalTechnicalQuality content metaSize ∧
      evalTechnicalQuality content metaSize ≤ 1 := by
  rw [evalTechnicalQuality, minQ_eq_min]
  refine ⟨le_min ?_ (by norm_num), min_le_right _ _⟩
  split_ifs <;> norm_num

theorem applyOutcome_fields (job : ScrapingJob) (o : UrlOutcome) :
    (applyOutcome job o).completed_items + (applyOutcome job o).failed_items
        = job.completed_items + job.failed_items + 1 ∧
      (applyOutcome job o).total_items = job.total_items ∧
      (applyOutcome job o).status = job.status := by
  cases o <;> simp [applyOutcome] <;> omega

theorem foldl_applyOutcome_fields (outs : List UrlOutcome) :
    ∀ job : ScrapingJob,
      (outs.foldl applyOutcome job).completed_items + (outs.foldl applyOutcome job).failed_items
          = job.completed_items + job.failed_items + outs.length ∧
        (outs.foldl applyOutcome job).total_items = job.total_items ∧
        (outs.foldl applyOutcome job).status = job.status := by
  induction outs with
  | nil => intro job; simp
  | cons o t ih =>
    intro job
    have h1 := applyOutcome_fields job o
    have h2 := ih (applyOutcome job o)
    simp only [List.foldl_cons, List.length_cons]
    refine ⟨?_, ?_, ?_⟩
    · omega
    · rw [h2.2.1, h1.2.1]
    · rw [h2.2.2, h1.2.2]

theorem mem_scanl_applyOutcome (outs : List UrlOutcome) :
    ∀ (init j : ScrapingJob), j ∈ outs.scanl applyOutcome init →
      j.completed_items + j.failed_items
          ≤ init.completed_items + init.failed_items + outs.length ∧
        j.total_items = init.total_items ∧ j.status = init.status := by
  induction outs with
  | nil =>
    intro init j hj
    simp [List.scanl] at hj
    simp [hj]
  | cons o t ih =>
    intro init j hj
    simp only [List.scanl, List.mem_cons] at hj
    rcases hj with rfl | hj
    · simp
    · have h1 := applyOutcome_fields init o
      have h2 := ih (applyOutcome init o) j hj
      refine ⟨by simp only [List.length_cons]; omega, ?_, ?_⟩
      · rw [h2.2.1, h1.2.1]
      · rw [h2.2.2, h1.2.2]

theorem wb_cons (n : ℕ) : ∃ t, wordsBlock n = 'w' :: t := by
  cases n <;> exact ⟨_, rfl⟩

theorem wb_collapse (n : ℕ) : ∀ b, collapseWsAux (wordsBlock n) b = wordsBlock n := by
  induction n with
  | zero => intro b; cases b <;> decide
  | succ n ih =>
    intro b
    simp [wordsBlock, collapseWsAux, isWsB, ih]

theorem wb_reverse (n : ℕ) : ∃ t, (wordsBlock n).reverse = 'd' :: t := by
  induction n with
  | zero => exact ⟨['r', 'o', 'w'], by decide⟩
  | succ n ih =>
    obtain ⟨t, ht⟩ := ih
    exact ⟨t ++ [' ', 'd', 'r', 'o', 'w'], by simp [wordsBlock, ht]⟩

theorem stripChars_eq_self {l : List Char}
    (h1 : l.dropWhile isWsB = l) (h2 : l.reverse.dropWhile isWsB = l.reverse) :
    stripChars l = l := by
  unfold stripChars
  rw [h1, h2, List.reverse_reverse]

theorem wb_strip (n : ℕ) : stripChars (wordsBlock n) = wordsBlock n := by
  obtain ⟨t, ht⟩ := wb_cons n
  obtain ⟨r, hr⟩ := wb_reverse n
  refine stripChars_eq_self ?_ ?_
  · rw [ht]
    simp [List.dropWhile_cons, isWsB]
  · rw [hr]
    simp [List.dropWhile_cons, isWsB]

theorem wb_len (n : ℕ) : (wordsBlock n).length = 5 * n + 4 := by
  induction n with
  | zero => decide
  | succ n ih =>
    simp [wordsBlock, ih]
    omega

theorem wb_words (n : ℕ) : countWordsAux (wordsBlock n) false = n + 1 := by
  induction n with
  | zero => decide
  | succ n ih =>
    simp [wordsBlock, countWordsAux, isWsB, ih]
    omega

theorem wb_collapseWs (n : ℕ) : collapseWs (wordsBlock n) = wordsBlock n := by
  unfold collapseWs
  rw [wb_collapse n false, wb_strip n]

theorem strategyRawContent_pageGood :
    strategyRawContent pageGood.doc "legal_documents" = legalPageContent := rfl

theorem extract_pageGood :
    extractContentByStrategy pageGood.doc "legal_documents"
      = ("Legal archive".data, legalPageContent) := by
  unfold extractContentByStrategy
  rw [strategyRawContent_pageGood]
  rw [show collapseWs legalPageContent = legalPageContent from wb_collapseWs 1199]
  simp only [Prod.mk.injEq]
  exact ⟨by decide, trivial⟩

theorem scrape_page404_none :
    scrapeUrl page404 "http://a.example/x".data "legal_documents" 0 = none := rfl

theorem scrape_pageShort_none :
    scrapeUrl pageShort "http://c.example/x".data "legal_documents" 0 = none := rfl

theorem scrape_pageGood_words :
    (scrapeUrl pageGood "http://b.example/x".data "legal_documents" 0).map
      ScrapedItem.word_count = some 1200 := by
  unfold scrapeUrl
  rw [if_neg (by decide), if_neg (by decide), extract_pageGood]
  rw [if_neg ?hc]
  case hc =>
    rw [show stripChars legalPageContent = legalPageContent from wb_strip 1199]
    push_neg
    constructor
    · obtain ⟨t, ht⟩ := wb_cons 1199
      simp [legalPageContent, ht]
    · rw [show legalPageContent.length = 5 * 1199 + 4 from wb_len 1199]
      norm_num
  simp only [Option.map_some]
  show some (countWords legalPageContent) = some 1200
  rw [show countWords legalPageContent = 1200 from wb_words 1199]

/-! ## Claim theorems -/

/-- C1: for every scraping job, at every state the background task
exposes — at registration, after each URL, at the terminal state, and
even when the outer exception handler aborts the run after a prefix of
the URLs — `completed_items + failed_items ≤ total_items` with
`total_items` the number of URLs given at start; and when the loop exits
normally the status is `completed` with
`completed_items + failed_items = total_items`. -/
theorem claim_C1_job_counter_invariant (jobId : String) (urls : List (List Char))
    (strategy : String) (maxDepth : ℕ) (delay : ℚ) (outs : List UrlOutcome)
    (hlen : outs.length = urls.length) :
    (startScrapingJob jobId urls strategy maxDepth delay).total_items = urls.length ∧
    (∀ j ∈ execTrace (startScrapingJob jobId urls strategy maxDepth delay) outs,
      j.completed_items + j.failed_items ≤ j.total_items) ∧
    (∀ pre : List UrlOutcome, pre.length ≤ urls.length →
      (execScrapingJobAborted (startScrapingJob jobId urls strategy maxDepth delay)
          pre).completed_items +
        (execScrapingJobAborted (startScrapingJob jobId urls strategy maxDepth delay)
          pre).failed_items ≤
        (execScrapingJobAborted (startScrapingJob jobId urls strategy maxDepth delay)
          pre).total_items) ∧
    (execScrapingJob (startScrapingJob jobId urls strategy maxDepth delay)
        outs).completed_items +
      (execScrapingJob (startScrapingJob jobId urls strategy maxDepth delay)
        outs).failed_items =
      (execScrapingJob (startScrapingJob jobId urls strategy maxDepth delay)
        outs).total_items ∧
    (execScrapingJob (startScrapingJob jobId urls strategy maxDepth delay) outs).status
      = "completed" := by
  refine ⟨rfl, ?_, ?_, ?_, ?_⟩
  · intro j hj
    simp only [execTrace, List.cons_append, List.mem_cons, List.mem_append,
      List.mem_singleton, List.mem_nil_iff, or_false] at hj
    rcases hj with rfl | hj | rfl
    · simp [startScrapingJob]
    · obtain ⟨h1, h2, h3⟩ := mem_scanl_applyOutcome outs _ j hj
      simp only [startScrapingJob] at h1 h2
      omega
    · have h := foldl_applyOutcome_fields outs
        { startScrapingJob jobId urls strategy maxDepth delay with status := "processing" }
      simp only [execScrapingJob, startScrapingJob] at h ⊢
      omega
  · intro pre hpre
    have h := foldl_applyOutcome_fields pre
      { startScrapingJob jobId urls strategy maxDepth delay with status := "processing" }
    simp only [execScrapingJobAborted, startScrapingJob] at h ⊢
    omega
  · have h := foldl_applyOutcome_fields outs
      { startScrapingJob jobId urls strategy maxDepth delay with status := "processing" }
    simp only [execScrapingJob, startScrapingJob] at h ⊢
    omega
  · rfl

/-- Witness for C1 at a concrete two-URL job whose first URL fails and
whose second raises inside the per-URL guard. -/
theorem claim_C1_job_counter_invariant_witness :
    (execScrapingJob (startScrapingJob "j" ["u1".data, "u2".data] "general" 1 1)
        [UrlOutcome.noResult, UrlOutcome.error]).completed_items +
      (execScrapingJob (startScrapingJob "j" ["u1".data, "u2".data] "general" 1 1)
        [UrlOutcome.noResult, UrlOutcome.error]).failed_items =
      (execScrapingJob (startScrapingJob "j" ["u1".data, "u2".data] "general" 1 1)
        [UrlOutcome.noResult, UrlOutcome.error]).total_items ∧
    (execScrapingJob (startScrapingJob "j" ["u1".data, "u2".data] "general" 1 1)
        [UrlOutcome.noResult, UrlOutcome.error]).status = "completed" :=
  ⟨(claim_C1_job_counter_invariant "j" ["u1".data, "u2".data] "general" 1 1
      [UrlOutcome.noResult, UrlOutcome.error] rfl).2.2.2.1,
   (claim_C1_job_counter_invariant "j" ["u1".data, "u2".data] "general" 1 1
      [UrlOutcome.noResult, UrlOutcome.error] rfl).2.2.2.2⟩

/-- C2 (supporting theorem for the code bug): no state the embedded job
execution can reach — normal or aborted — ever carries the status
`stopped`; the service's loop consults no stop flag and the
`ScrapingService` class defines no `stop_job` at all, so the claimed
cooperative-stop contract has no implementation to verify. -/
theorem claim_C2_no_stop_mechanism (jobId : String) (urls : List (List Char))
    (strategy : String) (maxDepth : ℕ) (delay : ℚ) (outs pre : List UrlOutcome) :
    (∀ j ∈ execTrace (startScrapingJob jobId urls strategy maxDepth delay) outs,
      j.status ≠ "stopped") ∧
    (execScrapingJobAborted (startScrapingJob jobId urls strategy maxDepth delay)
      pre).status ≠ "stopped" := by
  constructor
  · intro j hj
    simp only [execTrace, List.cons_append, List.mem_cons, List.mem_append,
      List.mem_singleton, List.mem_nil_iff, or_false] at hj
    rcases hj with rfl | hj | rfl
    · simp [startScrapingJob]
    · have h := (mem_scanl_applyOutcome outs _ j hj).2.2
      rw [h]
      simp
    · simp [execScrapingJob]
  · have h := (foldl_applyOutcome_fields pre
      { startScrapingJob jobId urls strategy maxDepth delay with status := "processing" }).2.2
    simp [execScrapingJobAborted]

/-- C8: a 404 response and a page whose extracted content is under 50
characters each yield no result rather than an exception, the valid
1200-word page yields an item, and the job over the three URLs ends
with `total=3, completed=1, failed=2, status='completed'`. -/
theorem claim_C8_per_url_failure_isolation :
    scrapeUrl page404 "http://a.example/x".data "legal_documents" 0 = none ∧
    scrapeUrl pageShort "http://c.example/x".data "legal_documents" 0 = none ∧
    (scrapeUrl pageGood "http://b.example/x".data "legal_documents" 0).map
      ScrapedItem.word_count = some 1200 ∧
    (execScrapingJob c8Job c8Outs).total_items = 3 ∧
    (execScrapingJob c8Job c8Outs).completed_items = 1 ∧
    (execScrapingJob c8Job c8Outs).failed_items = 2 ∧
    (execScrapingJob c8Job c8Outs).status = "completed" := by
  obtain ⟨item, hitem⟩ : ∃ i, scrapeUrl pageGood "http://b.example/x".data "legal_documents" 0
      = some i := by
    have h := scrape_pageGood_words
    cases heq : scrapeUrl pageGood "http://b.example/x".data "legal_documents" 0 with
    | none => rw [heq] at h; simp at h
    | some i => exact ⟨i, rfl⟩
  have houts : c8Outs = [UrlOutcome.noResult, UrlOutcome.ok item, UrlOutcome.noResult] := by
    unfold c8Outs
    rw [scrape_page404_none, scrape_pageShort_none, hitem]
    rfl
  refine ⟨scrape_page404_none, scrape_pageShort_none, scrape_pageGood_words, ?_, ?_, ?_, ?_⟩
    <;> rw [houts] <;> rfl

theorem patSearchB_eq_false_of {p : List (List Char)} {content : List Char}
    (h : patCount p content = 0) : patSearchB p content = false := by
  simp [patSearchB, h]

theorem splitDelims_length_pos (content : List Char) :
    0 < (splitDelims content).length := by
  cases content with
  | nil => simp [splitDelims]
  | cons c rest =>
    rw [splitDelims]
    split
    · simp
    · cases h : splitDelims rest <;> simp

theorem sentenceQuality_le_one (content : List Char) : sentenceQuality content ≤ 1 := by
  unfold sentenceQuality
  have h1 : (splitDelims content).countP (fun p => decide (10 < (stripChars p).length))
      ≤ (splitDelims content).length := List.countP_le_length _
  have h2 : 0 < ((splitDelims content).length : ℚ) := by
    exact_mod_cast splitDelims_length_pos content
  rw [div_le_one h2]
  exact_mod_cast h1

theorem cred_eq_zero (domain url metaTitle : List Char) (metaSize : ℕ)
    (h1 : domain ∉ credibleDomains)
    (h2 : containsSub ".gov.".data domain = false)
    (h3 : ".gov.ir".data.isSuffixOf domain = false)
    (h4 : containsSub ".edu.".data domain = false)
    (h5 : ".ac.ir".data.isSuffixOf domain = false)
    (h6 : "https://".data.isPrefixOf url = false)
    (h7 : metaSize = 0) :
    evalSourceCredibility domain url metaTitle metaSize = 0 := by
  simp [evalSourceCredibility, minQ, h1, h2, h3, h4, h5, h6, h7]

theorem comp_eq_zero (content title : List Char) (wc : ℕ)
    (hwc : wc < 100)
    (hs : patCount structurePat4 content = 0)
    (hl : ∀ p ∈ legalPatterns, patCount p content = 0)
    (hq : ∀ p ∈ qualityIndicators, patCount p content = 0) :
    evalContentCompleteness content title wc = 0 := by
  have hlc : legalPatterns.countP (fun p => patSearchB p content) = 0 :=
    List.countP_eq_zero.mpr (fun p hp => by simp [patSearchB_eq_false_of (hl p hp)])
  have hqc : qualityIndicators.countP (fun p => patSearchB p content) = 0 :=
    List.countP_eq_zero.mpr (fun p hp => by simp [patSearchB_eq_false_of (hq p hp)])
  rw [evalContentCompleteness, hlc, hqc, patSearchB_eq_false_of hs]
  rw [if_neg (by omega), if_neg (by omega), if_neg (by omega)]
  norm_num [minQ]

theorem ocr_le_half (content language : List Char)
    (hp : persianCount content = 0)
    (hpb : hasParaBreak content = false) :
    evalOcrAccuracy content language ≤ 1/2 := by
  rw [evalOcrAccuracy, minQ_eq_min]
  refine le_trans (min_le_left _ _) ?_
  rw [hp, hpb]
  rw [if_neg (by norm_num : ¬ ((0:ℕ) < 0 ∧ 0 < englishCount content))]
  rw [if_neg (by simp : ¬ (false = true))]
  have hsq : sentenceQuality content * (3/10) ≤ 3/10 := by
    have := mul_le_mul_of_nonneg_right (sentenceQuality_le_one content)
      (by norm_num : (0:ℚ) ≤ 3/10)
    simpa using this
  have he : (if ocrErrorsQ content < 1/100 then (1 : ℚ)/5
      else if ocrErrorsQ content < 1/20 then (1 : ℚ)/10 else 0) ≤ 1/5 := by
    split_ifs <;> norm_num
  linarith

theorem rel_eq_zero (content title : List Char)
    (hl : ∀ p ∈ legalPatterns, patCount p content = 0)
    (hlt : ∀ p ∈ legalPatterns, patCount p title = 0)
    (ho : patCount officialTermsPat content = 0) :
    evalContentRelevance content title = 0 := by
  have hsum : legalTermsTotal content = 0 := by
    unfold legalTermsTotal
    rw [List.sum_eq_zero]
    intro x hx
    simp only [List.mem_map] at hx
    obtain ⟨p, hp, rfl⟩ := hx
    exact hl p hp
  have htl : legalPatterns.countP (fun p => patSearchB p title) = 0 :=
    List.countP_eq_zero.mpr (fun p hp => by simp [patSearchB_eq_false_of (hlt p hp)])
  rw [evalContentRelevance, hsum, htl, ho]
  norm_num [minQ]

theorem tech_eq_zero (content : List Char) (metaSize : ℕ)
    (hts : patCount techStructurePat content = 0)
    (hnn : containsSub ['\n', '\n'] content = false)
    (hp : persianCount content = 0)
    (hms : metaSize < 3)
    (hlen : content.length < 200) :
    evalTechnicalQuality content metaSize = 0 := by
  have hshare : persianShareQ content = 0 := by
    unfold persianShareQ
    rw [hp]
    simp
  rw [evalTechnicalQuality, patSearchB_eq_false_of hts, hnn, hshare]
  rw [if_neg (by norm_num : ¬ ((3:ℚ)/10 ≤ 0 ∧ (0:ℚ) ≤ 9/10))]
  rw [if_neg (by omega : ¬ (3 ≤ metaSize)), if_neg (by omega : ¬ (200 ≤ content.length))]
  norm_num [minQ]

theorem round3_of_lt_half (x : ℚ) (n : ℤ) (hf : ⌊1000 * x⌋ = n)
    (hlt : 1000 * x - n < 1/2) : round3 x = (n : ℚ) / 1000 := by
  unfold round3 roundHalfEven
  rw [hf, if_pos hlt]

theorem round3_of_gt_half (x : ℚ) (n : ℤ) (hf : ⌊1000 * x⌋ = n)
    (hgt : 1/2 < 1000 * x - n) : round3 x = ((n : ℚ) + 1) / 1000 := by
  unfold round3 roundHalfEven
  rw [hf, if_neg (by linarith), if_pos hgt]
  push_cast
  ring

theorem round3_of_half_even (x : ℚ) (n : ℤ) (hf : ⌊1000 * x⌋ = n)
    (heq : 1000 * x - n = 1/2) (heven : n % 2 = 0) : round3 x = (n : ℚ) / 1000 := by
  unfold round3 roundHalfEven
  rw [hf, if_neg (by linarith), if_neg (by linarith), if_pos heven]

theorem freshness_str_eq (t now d : ℤ) (hd : Int.fdiv (now - t) 86400 = d) :
    evalDataFreshness (TimestampField.str (some t)) now = freshnessBucket d := by
  simp only [evalDataFreshness, Option.getD]
  rw [hd]

theorem freshnessBucket_le30 {a : ℤ} (h : a ≤ 30) : freshnessBucket a = 1 := by
  unfold freshnessBucket
  rw [if_pos h]

theorem freshnessBucket_31_90 {a : ℤ} (h1 : 30 < a) (h2 : a ≤ 90) :
    freshnessBucket a = 4/5 := by
  unfold freshnessBucket
  rw [if_neg (by omega), if_pos h2]

theorem freshnessBucket_91_365 {a : ℤ} (h1 : 90 < a) (h2 : a ≤ 365) :
    freshnessBucket a = 3/5 := by
  unfold freshnessBucket
  rw [if_neg (by omega), if_neg (by omega), if_pos h2]

theorem freshnessBucket_366_1095 {a : ℤ} (h1 : 365 < a) (h2 : a ≤ 1095) :
    freshnessBucket a = 2/5 := by
  unfold freshnessBucket
  rw [if_neg (by omega), if_neg (by omega), if_neg (by omega), if_pos h2]

theorem freshnessBucket_gt1095 {a : ℤ} (h : 1095 < a) : freshnessBucket a = 1/5 := by
  unfold freshnessBucket
  rw [if_neg (by omega), if_neg (by omega), if_neg (by omega), if_neg (by omega)]

theorem rateItem_rawOverall (item : ItemData) (now : ℤ) (e : String) :
    (rateItem defaultRatingConfig item now e).rawOverall
      = evalSourceCredibility item.domain item.url item.metaTitle item.metaSize * (1/4)
      + evalContentCompleteness item.content item.title item.word_count * (1/4)
      + evalOcrAccuracy item.content item.language * (1/5)
      + evalDataFreshness item.timestamp now * (3/20)
      + evalContentRelevance item.content item.title * (1/10)
      + evalTechnicalQuality item.content item.metaSize * (1/20) := rfl

theorem rateItem_overall_eq (item : ItemData) (now : ℤ) (e : String) :
    (rateItem defaultRatingConfig item now e).overall_score
      = round3 ((rateItem defaultRatingConfig item now e).rawOverall) := rfl

theorem rateItem_level_eq (item : ItemData) (now : ℤ) (e : String) :
    (rateItem defaultRatingConfig item now e).rating_level
      = determineRatingLevel defaultRatingConfig
          ((rateItem defaultRatingConfig item now e).rawOverall) := rfl

theorem rateItem_criteria_eq (item : ItemData) (now : ℤ) (e : String) :
    (rateItem defaultRatingConfig item now e).criteria_scores
      = (rawCriteriaScores item now).map round3 := rfl

theorem rateItem_rawCriteria_eq (item : ItemData) (now : ℤ) (e : String) :
    (rateItem defaultRatingConfig item now e).rawCriteria
      = rawCriteriaScores item now := rfl

theorem determineLevel_default_poor {overall : ℚ} (h1 : 1/5 ≤ overall) (h2 : overall < 2/5) :
    determineRatingLevel defaultRatingConfig overall = RatingLevelE.poor := by
  unfold determineRatingLevel
  rw [show defaultRatingConfig.excellent_threshold = 4/5 from rfl,
    show defaultRatingConfig.good_threshold = 3/5 from rfl,
    show defaultRatingConfig.average_threshold = 2/5 from rfl,
    show defaultRatingConfig.poor_threshold = 1/5 from rfl]
  rw [if_neg (by linarith), if_neg (by linarith), if_neg (by linarith), if_pos h1]

theorem determineLevel_default_unrated {overall : ℚ} (h : overall < 1/5) :
    determineRatingLevel defaultRatingConfig overall = RatingLevelE.unrated := by
  unfold determineRatingLevel
  rw [show defaultRatingConfig.excellent_threshold = 4/5 from rfl,
    show defaultRatingConfig.good_threshold = 3/5 from rfl,
    show defaultRatingConfig.average_threshold = 2/5 from rfl,
    show defaultRatingConfig.poor_threshold = 1/5 from rfl]
  rw [if_neg (by linarith), if_neg (by linarith), if_neg (by linarith), if_neg (by linarith)]

set_option maxRecDepth 10000

theorem c3_cred : evalSourceCredibility c3Item.domain c3Item.url c3Item.metaTitle
    c3Item.metaSize = 1/10 := by
  rw [evalSourceCredibility]
  rw [if_neg (by decide), if_neg (by decide), if_neg (by decide), if_pos (by decide),
    if_neg (by decide)]
  norm_num [minQ]

theorem c3_comp : evalContentCompleteness c3Item.content c3Item.title c3Item.word_count = 0 :=
  comp_eq_zero _ _ _ (by decide) (by decide) (by decide) (by decide)

theorem c3_sq : sentenceQuality c3Item.content = 1/7 := by
  unfold sentenceQuality
  rw [show (splitDelims c3Item.content).countP (fun p => decide (10 < (stripChars p).length)) = 1
      from by decide,
    show (splitDelims c3Item.content).length = 7 from by decide]
  norm_num

theorem c3_ocrerr : ocrErrorsQ c3Item.content = 0 := by
  unfold ocrErrorsQ
  rw [if_pos (by decide), show runCount c3Item.content = 0 from by decide]
  norm_num

theorem c3_ocr : evalOcrAccuracy c3Item.content c3Item.language = 17/70 := by
  rw [evalOcrAccuracy]
  rw [if_neg (by decide)]
  rw [c3_sq, c3_ocrerr]
  rw [if_pos (by norm_num : (0:ℚ) < 1/100)]
  rw [if_neg (by decide : ¬ hasParaBreak c3Item.content = true)]
  norm_num [minQ]

theorem c3_fresh : evalDataFreshness c3Item.timestamp 0 = 1 := by
  rw [show c3Item.timestamp = TimestampField.str (some 0) from rfl,
    freshness_str_eq 0 0 0 (by decide)]
  exact freshnessBucket_le30 (by norm_num)

theorem c3_rel : evalContentRelevance c3Item.content c3Item.title = 0 :=
  rel_eq_zero _ _ (by decide) (by decide) (by decide)

theorem c3_tech : evalTechnicalQuality c3Item.content c3Item.metaSize = 0 :=
  tech_eq_zero _ _ (by decide) (by decide) (by decide) (by decide) (by decide)

theorem c3_raw : (rateItem defaultRatingConfig c3Item 0 "auto").rawOverall = 313/1400 := by
  rw [rateItem_rawOverall, c3_cred, c3_comp, c3_ocr, c3_fresh, c3_rel, c3_tech]
  norm_num

theorem c3_overall : (rateItem defaultRatingConfig c3Item 0 "auto").overall_score = 28/125 := by
  rw [rateItem_overall_eq, c3_raw,
    round3_of_gt_half _ 223 (by rw [Int.floor_eq_iff] <;> norm_num) (by norm_num)]
  norm_num

theorem c3_scores : rawCriteriaScores c3Item 0 = [1/10, 0, 17/70, 1, 0, 0] := by
  rw [rawCriteriaScores, c3_cred, c3_comp, c3_ocr, c3_fresh, c3_rel, c3_tech]

theorem c3_dot : dotQ ((rateItem defaultRatingConfig c3Item 0 "auto").criteria_scores)
    (ratingWeights defaultRatingConfig) = 559/2500 := by
  rw [rateItem_criteria_eq, c3_scores]
  have r1 : round3 ((1:ℚ)/10) = 100/1000 :=
    round3_of_lt_half _ 100 (by rw [Int.floor_eq_iff] <;> norm_num) (by norm_num)
  have r2 : round3 (0:ℚ) = 0/1000 :=
    round3_of_lt_half _ 0 (by rw [Int.floor_eq_iff] <;> norm_num) (by norm_num)
  have r3 : round3 ((17:ℚ)/70) = (242+1)/1000 :=
    round3_of_gt_half _ 242 (by rw [Int.floor_eq_iff] <;> norm_num) (by norm_num)
  have r4 : round3 (1:ℚ) = 1000/1000 :=
    round3_of_lt_half _ 1000 (by rw [Int.floor_eq_iff] <;> norm_num) (by norm_num)
  simp only [List.map_cons, List.map_nil, r1, r2, r3, r4]
  show dotQ [100/1000, 0/1000, (242+1)/1000, 1000/1000, 0/1000, 0/1000]
    (ratingWeights defaultRatingConfig) = 559/2500
  rw [show ratingWeights defaultRatingConfig = [1/4, 1/4, 1/5, 3/20, 1/10, 1/20] from rfl]
  simp [dotQ]
  norm_num

theorem c7_cred : evalSourceCredibility c7Item.domain c7Item.url c7Item.metaTitle
    c7Item.metaSize = 0 :=
  cred_eq_zero _ _ _ _ (by decide) (by decide) (by decide) (by decide) (by decide)
    (by decide) (by decide)

theorem c7_comp : evalContentCompleteness c7Item.content c7Item.title c7Item.word_count = 0 :=
  comp_eq_zero _ _ _ (by decide) (by decide) (by decide) (by decide)

theorem c7_ocr : evalOcrAccuracy c7Item.content c7Item.language = 1/5 := by
  rw [evalOcrAccuracy]
  rw [if_neg (by decide)]
  rw [show sentenceQuality c7Item.content = 0 from by
    unfold sentenceQuality
    rw [show (splitDelims c7Item.content).countP
        (fun p => decide (10 < (stripChars p).length)) = 0 from by decide]
    norm_num]
  rw [show ocrErrorsQ c7Item.content = 0 from by
    unfold ocrErrorsQ
    rw [if_neg (by decide)]]
  rw [if_pos (by norm_num : (0:ℚ) < 1/100)]
  rw [if_neg (by decide : ¬ hasParaBreak c7Item.content = true)]
  norm_num [minQ]

theorem c7_rel : evalContentRelevance c7Item.content c7Item.title = 0 :=
  rel_eq_zero _ _ (by decide) (by decide) (by decide)

theorem c7_tech : evalTechnicalQuality c7Item.content c7Item.metaSize = 0 :=
  tech_eq_zero _ _ (by decide) (by decide) (by decide) (by decide) (by decide)

theorem c7_fresh_29 : evalDataFreshness c7Item.timestamp (29 * 86400) = 1 := by
  rw [show c7Item.timestamp = TimestampField.str (some 0) from rfl,
    freshness_str_eq 0 (29 * 86400) 29 (by decide)]
  exact freshnessBucket_le30 (by norm_num)

theorem c7_fresh_31 : evalDataFreshness c7Item.timestamp (31 * 86400) = 4/5 := by
  rw [show c7Item.timestamp = TimestampField.str (some 0) from rfl,
    freshness_str_eq 0 (31 * 86400) 31 (by decide)]
  exact freshnessBucket_31_90 (by norm_num) (by norm_num)

theorem c7_fresh_0 : evalDataFreshness c7Item.timestamp 0 = 1 := by
  rw [show c7Item.timestamp = TimestampField.str (some 0) from rfl,
    freshness_str_eq 0 0 0 (by decide)]
  exact freshnessBucket_le30 (by norm_num)

theorem c7_raw_29 : (rateItem defaultRatingConfig c7Item (29 * 86400) "manual").rawOverall
    = 19/100 := by
  rw [rateItem_rawOverall, c7_cred, c7_comp, c7_ocr, c7_fresh_29, c7_rel, c7_tech]
  norm_num

theorem c7_raw_31 : (rateItem defaultRatingConfig c7Item (31 * 86400) "manual").rawOverall
    = 4/25 := by
  rw [rateItem_rawOverall, c7_cred, c7_comp, c7_ocr, c7_fresh_31, c7_rel, c7_tech]
  norm_num

theorem c7_raw_0 : (rateItem defaultRatingConfig c7Item 0 "auto").rawOverall = 19/100 := by
  rw [rateItem_rawOverall, c7_cred, c7_comp, c7_ocr, c7_fresh_0, c7_rel, c7_tech]
  norm_num

theorem c7_overall_29 : (rateItem defaultRatingConfig c7Item (29 * 86400)
    "manual").overall_score = 19/100 := by
  rw [rateItem_overall_eq, c7_raw_29,
    round3_of_lt_half _ 190 (by rw [Int.floor_eq_iff] <;> norm_num) (by norm_num)]
  norm_num

theorem c7_overall_31 : (rateItem defaultRatingConfig c7Item (31 * 86400)
    "manual").overall_score = 4/25 := by
  rw [rateItem_overall_eq, c7_raw_31,
    round3_of_lt_half _ 160 (by rw [Int.floor_eq_iff] <;> norm_num) (by norm_num)]
  norm_num

theorem c9_cred : evalSourceCredibility c9Item.domain c9Item.url c9Item.metaTitle
    c9Item.metaSize = 0 :=
  cred_eq_zero _ _ _ _ (by decide) (by decide) (by decide) (by decide) (by decide)
    (by decide) (by decide)

theorem c9_comp : evalContentCompleteness c9Item.content c9Item.title c9Item.word_count = 0 :=
  comp_eq_zero _ _ _ (by decide) (by decide) (by decide) (by decide)

theorem c9_ocr : evalOcrAccuracy c9Item.content c9Item.language = 1/2 := by
  rw [evalOcrAccuracy]
  rw [if_neg (by decide)]
  rw [show sentenceQuality c9Item.content = 1 from by
    unfold sentenceQuality
    rw [show (splitDelims c9Item.content).countP
        (fun p => decide (10 < (stripChars p).length)) = 2 from by decide,
      show (splitDelims c9Item.content).length = 2 from by decide]
    norm_num]
  rw [show ocrErrorsQ c9Item.content = 0 from by
    unfold ocrErrorsQ
    rw [if_pos (by decide), show runCount c9Item.content = 0 from by decide]
    norm_num]
  rw [if_pos (by norm_num : (0:ℚ) < 1/100)]
  rw [if_neg (by decide : ¬ hasParaBreak c9Item.content = true)]
  norm_num [minQ]

theorem c9_fresh : evalDataFreshness c9Item.timestamp 0 = 1 := by
  rw [show c9Item.timestamp = TimestampField.str (some 0) from rfl,
    freshness_str_eq 0 0 0 (by decide)]
  exact freshnessBucket_le30 (by norm_num)

theorem c9_rel : evalContentRelevance c9Item.content c9Item.title = 0 :=
  rel_eq_zero _ _ (by decide) (by decide) (by decide)

theorem c9_tech : evalTechnicalQuality c9Item.content c9Item.metaSize = 0 :=
  tech_eq_zero _ _ (by decide) (by decide) (by decide) (by decide) (by decide)

theorem c9_raw : (rateItem defaultRatingConfig c9Item 0 "auto").rawOverall = 1/4 := by
  rw [rateItem_rawOverall, c9_cred, c9_comp, c9_ocr, c9_fresh, c9_rel, c9_tech]
  norm_num

theorem c9_overall : (rateItem defaultRatingConfig c9Item 0 "auto").overall_score = 1/4 := by
  rw [rateItem_overall_eq, c9_raw,
    round3_of_lt_half _ 250 (by rw [Int.floor_eq_iff] <;> norm_num) (by norm_num)]
  norm_num

theorem c9_level : (rateItem defaultRatingConfig c9Item 0 "auto").rating_level
    = RatingLevelE.poor := by
  rw [rateItem_level_eq, c9_raw]
  exact determineLevel_default_poor (by norm_num) (by norm_num)

theorem c10_cred : evalSourceCredibility c10Item.domain c10Item.url c10Item.metaTitle
    c10Item.metaSize = 1/10 := by
  rw [evalSourceCredibility]
  rw [if_neg (by decide), if_neg (by decide), if_neg (by decide), if_pos (by decide),
    if_neg (by decide)]
  norm_num [minQ]

theorem c10_comp : evalContentCompleteness c10Item.content c10Item.title
    c10Item.word_count = 0 :=
  comp_eq_zero _ _ _ (by decide) (by decide) (by decide) (by decide)

theorem c10_ocr : evalOcrAccuracy c10Item.content c10Item.language = 19/80 := by
  rw [evalOcrAccuracy]
  rw [if_neg (by decide)]
  rw [show sentenceQuality c10Item.content = 1/8 from by
    unfold sentenceQuality
    rw [show (splitDelims c10Item.content).countP
        (fun p => decide (10 < (stripChars p).length)) = 1 from by decide,
      show (splitDelims c10Item.content).length = 8 from by decide]
    norm_num]
  rw [show ocrErrorsQ c10Item.content = 0 from by
    unfold ocrErrorsQ
    rw [if_pos (by decide), show runCount c10Item.content = 0 from by decide]
    norm_num]
  rw [if_pos (by norm_num : (0:ℚ) < 1/100)]
  rw [if_neg (by decide : ¬ hasParaBreak c10Item.content = true)]
  norm_num [minQ]

theorem c10_fresh : evalDataFreshness c10Item.timestamp 0 = 1 := by
  rw [show c10Item.timestamp = TimestampField.str (some 0) from rfl,
    freshness_str_eq 0 0 0 (by decide)]
  exact freshnessBucket_le30 (by norm_num)

theorem c10_rel : evalContentRelevance c10Item.content c10Item.title = 0 :=
  rel_eq_zero _ _ (by decide) (by decide) (by decide)

theorem c10_tech : evalTechnicalQuality c10Item.content c10Item.metaSize = 0 :=
  tech_eq_zero _ _ (by decide) (by decide) (by decide) (by decide) (by decide)

theorem c10_raw : (rateItem defaultRatingConfig c10Item 0 "auto").rawOverall = 89/400 := by
  rw [rateItem_rawOverall, c10_cred, c10_comp, c10_ocr, c10_fresh, c10_rel, c10_tech]
  norm_num

theorem c10_overall : (rateItem defaultRatingConfig c10Item 0 "auto").overall_score
    = 111/500 := by
  rw [rateItem_overall_eq, c10_raw,
    round3_of_half_even _ 222 (by rw [Int.floor_eq_iff] <;> norm_num) (by norm_num)
      (by norm_num)]
  norm_num

theorem c9w_fresh : evalDataFreshness c9wItem.timestamp 100000000 = 1/5 := by
  rw [show c9wItem.timestamp = TimestampField.str (some 0) from rfl,
    freshness_str_eq 0 100000000 1157 (by decide)]
  exact freshnessBucket_gt1095 (by norm_num)

theorem weighted_round_err (s1 s2 s3 s4 s5 s6 : ℚ) :
    |(s1 * (1/4) + s2 * (1/4) + s3 * (1/5) + s4 * (3/20) + s5 * (1/10) + s6 * (1/20))
        - (round3 s1 * (1/4) + round3 s2 * (1/4) + round3 s3 * (1/5) + round3 s4 * (3/20)
          + round3 s5 * (1/10) + round3 s6 * (1/20))| ≤ 1/2000 := by
  have h1 := round3_abs_le s1
  have h2 := round3_abs_le s2
  have h3 := round3_abs_le s3
  have h4 := round3_abs_le s4
  have h5 := round3_abs_le s5
  have h6 := round3_abs_le s6
  rw [abs_le] at h1 h2 h3 h4 h5 h6 ⊢
  constructor <;> linarith

/-- C3 counterexample: for the concrete item `c3Item` (whose OCR score is
`17/70`), the returned `overall_score` differs from the weighted sum of
the returned (rounded) criteria scores by `1/2500` and from the weighted
sum of the unrounded criteria scores by `3/7000`; both exceed the claimed
`1e-6` tolerance. -/
theorem claim_C3_overall_within_1e6_cex :
    |(rateItem defaultRatingConfig c3Item 0 "auto").overall_score -
        dotQ (rateItem defaultRatingConfig c3Item 0 "auto").criteria_scores
          (ratingWeights defaultRatingConfig)| > 1/1000000 ∧
    |(rateItem defaultRatingConfig c3Item 0 "auto").overall_score -
        (rateItem defaultRatingConfig c3Item 0 "auto").rawOverall| > 1/1000000 := by
  rw [c3_overall, c3_dot, c3_raw]
  constructor
  · rw [show (28:ℚ)/125 - 559/2500 = 1/2500 from by norm_num, abs_of_pos (by norm_num)]
    norm_num
  · rw [show (28:ℚ)/125 - 313/1400 = 3/7000 from by norm_num, abs_of_pos (by norm_num)]
    norm_num

/-- C3 (amended): the six default weights sum to exactly 1.0, and the
result's `overall_score` is the 3-decimal rounding of the weighted sum of
the unrounded criteria scores; it therefore agrees with the weighted sum
of the result's rounded criteria scores within 1e-3 and with the weighted
sum of the unrounded scores within 5e-4 — but not within the claimed
1e-6. -/
theorem claim_C3_weights_and_weighted_sum_amended (item : ItemData) (now : ℤ) (e : String) :
    (ratingWeights defaultRatingConfig).sum = 1 ∧
    (rateItem defaultRatingConfig item now e).overall_score
      = round3 (dotQ (rawCriteriaScores item now) (ratingWeights defaultRatingConfig)) ∧
    |(rateItem defaultRatingConfig item now e).overall_score
        - dotQ (rateItem defaultRatingConfig item now e).criteria_scores
            (ratingWeights defaultRatingConfig)| ≤ 1/1000 ∧
    |(rateItem defaultRatingConfig item now e).overall_score
        - (rateItem defaultRatingConfig item now e).rawOverall| ≤ 1/2000 := by
  have hW : ratingWeights defaultRatingConfig = [1/4, 1/4, 1/5, 3/20, 1/10, 1/20] := rfl
  have hdotraw : dotQ (rawCriteriaScores item now) (ratingWeights defaultRatingConfig)
      = (rateItem defaultRatingConfig item now e).rawOverall := by
    rw [rateItem_rawOverall, hW]
    simp only [rawCriteriaScores, dotQ]
    ring
  have hdotrounded : dotQ (rateItem defaultRatingConfig item now e).criteria_scores
      (ratingWeights defaultRatingConfig)
      = round3 (evalSourceCredibility item.domain item.url item.metaTitle item.metaSize) * (1/4)
      + round3 (evalContentCompleteness item.content item.title item.word_count) * (1/4)
      + round3 (evalOcrAccuracy item.content item.language) * (1/5)
      + round3 (evalDataFreshness item.timestamp now) * (3/20)
      + round3 (evalContentRelevance item.content item.title) * (1/10)
      + round3 (evalTechnicalQuality item.content item.metaSize) * (1/20) := by
    rw [rateItem_criteria_eq, hW]
    simp only [rawCriteriaScores, List.map_cons, List.map_nil, dotQ]
    ring
  refine ⟨by rw [hW]; norm_num, by rw [hdotraw]; exact rateItem_overall_eq item now e, ?_, ?_⟩
  · have htri := abs_sub_le ((rateItem defaultRatingConfig item now e).overall_score)
      ((rateItem defaultRatingConfig item now e).rawOverall)
      (dotQ (rateItem defaultRatingConfig item now e).criteria_scores
        (ratingWeights defaultRatingConfig))
    have hfirst : |(rateItem defaultRatingConfig item now e).overall_score
        - (rateItem defaultRatingConfig item now e).rawOverall| ≤ 1/2000 := by
      rw [rateItem_overall_eq]
      exact round3_abs_le _
    have hsecond : |(rateItem defaultRatingConfig item now e).rawOverall
        - dotQ (rateItem defaultRatingConfig item now e).criteria_scores
            (ratingWeights defaultRatingConfig)| ≤ 1/2000 := by
      rw [hdotrounded, rateItem_rawOverall]
      exact weighted_round_err _ _ _ _ _ _
    linarith
  · rw [rateItem_overall_eq]
    exact round3_abs_le _

/-- C4: every criterion score `rate_item` computes lies in `[0,1]`, and
`_calculate_confidence` on those scores equals
`max(0.5, 1 − stddev(criterion_scores))`, which lies in `[0.5, 1.0]`. -/
theorem claim_C4_criterion_and_confidence_ranges (item : ItemData) (now : ℤ) :
    (∀ s ∈ rawCriteriaScores item now, 0 ≤ s ∧ s ≤ 1) ∧
    calcConfidence (rawCriteriaScores item now)
      = max (1/2 : ℝ) (1 - stddevR (rawCriteriaScores item now)) ∧
    (1/2 : ℝ) ≤ calcConfidence (rawCriteriaScores item now) ∧
    calcConfidence (rawCriteriaScores item now) ≤ 1 := by
  have hne : rawCriteriaScores item now ≠ [] := by simp [rawCriteriaScores]
  refine ⟨?_, ?_, ?_, ?_⟩
  · intro s hs
    simp only [rawCriteriaScores, List.mem_cons, List.mem_nil_iff, or_false] at hs
    rcases hs with rfl | rfl | rfl | rfl | rfl | rfl
    · exact evalSourceCredibility_range _ _ _ _
    · exact evalContentCompleteness_range _ _ _
    · exact evalOcrAccuracy_range _ _
    · exact evalDataFreshness_range _ _
    · exact evalContentRelevance_range _ _
    · exact evalTechnicalQuality_range _ _
  · rw [calcConfidence, if_neg hne]
  · rw [calcConfidence, if_neg hne]
    exact le_max_left _ _
  · rw [calcConfidence, if_neg hne]
    refine max_le (by norm_num) ?_
    have h := Real.sqrt_nonneg ((varianceQ (rawCriteriaScores item now) : ℚ) : ℝ)
    unfold stddevR
    linarith

/-- C5 counterexample: a timestamp string that `fromisoformat` rejects is
replaced by the current time inside the inner `except`, so the freshness
score is `1.0`, not the claimed `0.5` default. -/
theorem claim_C5_unparsable_freshness_cex :
    evalDataFreshness (TimestampField.str none) 0 = 1 ∧
    evalDataFreshness (TimestampField.str none) 0 ≠ 1/2 := by
  have h : evalDataFreshness (TimestampField.str none) 0 = 1 := by
    show freshnessBucket (Int.fdiv (0 - 0) 86400) = 1
    rw [sub_self, show Int.fdiv (0:ℤ) 86400 = 0 from by decide]
    exact freshnessBucket_le30 (by norm_num)
  exact ⟨h, by rw [h]; norm_num⟩

/-- C5 (amended): the freshness score is the stated step function of the
age in days for parsable timestamp strings; an unparsable string is
treated as the current instant and scores `1.0`; the `0.5` default
applies only when computing the age itself raises (a non-string,
non-aware-datetime value). -/
theorem claim_C5_freshness_step_amended (now t : ℤ) :
    (Int.fdiv (now - t) 86400 ≤ 30 →
      evalDataFreshness (TimestampField.str (some t)) now = 1) ∧
    (30 < Int.fdiv (now - t) 86400 → Int.fdiv (now - t) 86400 ≤ 90 →
      evalDataFreshness (TimestampField.str (some t)) now = 4/5) ∧
    (90 < Int.fdiv (now - t) 86400 → Int.fdiv (now - t) 86400 ≤ 365 →
      evalDataFreshness (TimestampField.str (some t)) now = 3/5) ∧
    (365 < Int.fdiv (now - t) 86400 → Int.fdiv (now - t) 86400 ≤ 1095 →
      evalDataFreshness (TimestampField.str (some t)) now = 2/5) ∧
    (1095 < Int.fdiv (now - t) 86400 →
      evalDataFreshness (TimestampField.str (some t)) now = 1/5) ∧
    evalDataFreshness (TimestampField.str none) now = 1 ∧
    evalDataFreshness TimestampField.malformed now = 1/2 := by
  refine ⟨?_, ?_, ?_, ?_, ?_, ?_, rfl⟩
  · intro h
    rw [freshness_str_eq t now _ rfl]
    exact freshnessBucket_le30 h
  · intro h1 h2
    rw [freshness_str_eq t now _ rfl]
    exact freshnessBucket_31_90 h1 h2
  · intro h1 h2
    rw [freshness_str_eq t now _ rfl]
    exact freshnessBucket_91_365 h1 h2
  · intro h1 h2
    rw [freshness_str_eq t now _ rfl]
    exact freshnessBucket_366_1095 h1 h2
  · intro h
    rw [freshness_str_eq t now _ rfl]
    exact freshnessBucket_gt1095 h
  · show freshnessBucket (Int.fdiv (now - now) 86400) = 1
    rw [sub_self, show Int.fdiv (0:ℤ) 86400 = 0 from by decide]
    exact freshnessBucket_le30 (by norm_num)

/-- Witness for C5 at a fifty-day-old timestamp: the second bucket. -/
theorem claim_C5_freshness_step_amended_witness :
    evalDataFreshness (TimestampField.str (some 0)) (50 * 86400) = 4/5 :=
  (claim_C5_freshness_step_amended (50 * 86400) 0).2.1 (by decide) (by decide)

/-- C6: rating an item whose new (unrounded) score is within 0.01 of the
previously stored `rating_score` appends no history row; when it differs
by more than 0.01, exactly one row is appended whose `old_score` is the
previously stored score and whose `new_score` is the newly stored
score. -/
theorem claim_C6_history_epsilon (item : ItemData) (now : ℤ) (e : String)
    (stored : ℚ) (history : List RatingHistoryEntry) :
    (|stored - (rateItem defaultRatingConfig item now e).rawOverall| ≤ 1/100 →
      (rateItemAndUpdate defaultRatingConfig item now e (some stored) history).2.history
        = history) ∧
    (1/100 < |stored - (rateItem defaultRatingConfig item now e).rawOverall| →
      (rateItemAndUpdate defaultRatingConfig item now e (some stored) history).2.history
        = history ++ [⟨item.id, stored, (rateItem defaultRatingConfig item now e).rawOverall,
            "Auto re-evaluation", "auto"⟩] ∧
      (rateItemAndUpdate defaultRatingConfig item now e (some stored) history).2.rating_score
        = (rateItem defaultRatingConfig item now e).rawOverall ∧
      (rateItemAndUpdate defaultRatingConfig item now e
        (some stored) history).2.processing_status = "rated") := by
  have hh : (rateItemAndUpdate defaultRatingConfig item now e (some stored) history).2.history
      = if 1/100 < |stored - (rateItem defaultRatingConfig item now e).rawOverall| then
          history ++ [⟨item.id, stored, (rateItem defaultRatingConfig item now e).rawOverall,
            "Auto re-evaluation", "auto"⟩]
        else history := rfl
  constructor
  · intro h
    rw [hh, if_neg (not_lt.mpr h)]
  · intro h
    exact ⟨by rw [hh, if_pos h], rfl, rfl⟩

/-- Witness for C6: rating the concrete empty-content item (raw score
`0.19`) over a stored score of `0` appends exactly the one entry. -/
theorem claim_C6_history_epsilon_witness :
    (rateItemAndUpdate defaultRatingConfig c7Item 0 "auto" (some 0) []).2.history
      = [] ++ [⟨c7Item.id, 0, (rateItem defaultRatingConfig c7Item 0 "auto").rawOverall,
          "Auto re-evaluation", "auto"⟩] ∧
    (rateItemAndUpdate defaultRatingConfig c7Item 0 "auto" (some 0) []).2.rating_score
      = (rateItem defaultRatingConfig c7Item 0 "auto").rawOverall ∧
    (rateItemAndUpdate defaultRatingConfig c7Item 0 "auto"
      (some 0) []).2.processing_status = "rated" :=
  (claim_C6_history_epsilon c7Item 0 "auto" 0 []).2 (by
    rw [c7_raw_0, show (0:ℚ) - 19/100 = -(19/100) from by norm_num, abs_neg,
      abs_of_pos (by norm_num)]
    norm_num)

/-- C7 counterexample: re-evaluating the unchanged stored item `c7Item`
29 days after its timestamp and again 31 days after it crosses the
30-day freshness boundary, so the two `overall_score`s differ (`0.19`
vs `0.16`). -/
theorem claim_C7_determinism_cex :
    (reEvaluateItem defaultRatingConfig (some c7Item) (29 * 86400) "manual").map
        RatingOutcome.overall_score
      ≠ (reEvaluateItem defaultRatingConfig (some c7Item) (31 * 86400) "manual").map
          RatingOutcome.overall_score := by
  simp only [reEvaluateItem, Option.map_some']
  rw [c7_overall_29, c7_overall_31]
  intro hco
  rw [Option.some.injEq] at hco
  norm_num at hco

/-- C7 (amended): `re_evaluate_item` is a deterministic function of the
stored fields and the evaluation time; two invocations whose freshness
scores agree (in particular any two within the same age bucket) return
the same `overall_score`, `rating_level`, confidence and unrounded
score, whatever evaluator names are passed. -/
theorem claim_C7_determinism_amended (item : ItemData) (t1 t2 : ℤ) (e1 e2 : String)
    (hfresh : evalDataFreshness item.timestamp t1 = evalDataFreshness item.timestamp t2) :
    (reEvaluateItem defaultRatingConfig (some item) t1 e1).map RatingOutcome.overall_score
      = (reEvaluateItem defaultRatingConfig (some item) t2 e2).map
          RatingOutcome.overall_score ∧
    (reEvaluateItem defaultRatingConfig (some item) t1 e1).map RatingOutcome.rating_level
      = (reEvaluateItem defaultRatingConfig (some item) t2 e2).map
          RatingOutcome.rating_level ∧
    resultConfidence item t1 = resultConfidence item t2 ∧
    (reEvaluateItem defaultRatingConfig (some item) t1 e1).map RatingOutcome.rawOverall
      = (reEvaluateItem defaultRatingConfig (some item) t2 e2).map
          RatingOutcome.rawOverall := by
  have hraw : (rateItem defaultRatingConfig item t1 e1).rawOverall
      = (rateItem defaultRatingConfig item t2 e2).rawOverall := by
    rw [rateItem_rawOverall, rateItem_rawOverall, hfresh]
  have hov : (rateItem defaultRatingConfig item t1 e1).overall_score
      = (rateItem defaultRatingConfig item t2 e2).overall_score := by
    rw [rateItem_overall_eq, rateItem_overall_eq, hraw]
  have hlev : (rateItem defaultRatingConfig item t1 e1).rating_level
      = (rateItem defaultRatingConfig item t2 e2).rating_level := by
    rw [rateItem_level_eq, rateItem_level_eq, hraw]
  have hconf : resultConfidence item t1 = resultConfidence item t2 := by
    unfold resultConfidence
    rw [show rawCriteriaScores item t1 = rawCriteriaScores item t2 from by
      simp only [rawCriteriaScores, hfresh]]
  refine ⟨?_, ?_, hconf, ?_⟩ <;> simp only [reEvaluateItem, Option.map_some'] <;>
    simp only [hov, hlev, hraw]

/-- Witness for C7 at two instants ten days apart, both in the 30-day
freshness bucket of the stored item. -/
theorem claim_C7_determinism_amended_witness :
    (reEvaluateItem defaultRatingConfig (some c7Item) 0 "manual").map
        RatingOutcome.overall_score
      = (reEvaluateItem defaultRatingConfig (some c7Item) 864000 "auto").map
          RatingOutcome.overall_score :=
  (claim_C7_determinism_amended c7Item 0 864000 "manual" "auto" (by
    rw [show c7Item.timestamp = TimestampField.str (some 0) from rfl,
      freshness_str_eq 0 0 0 (by decide), freshness_str_eq 0 864000 10 (by decide),
      freshnessBucket_le30 (by norm_num), freshnessBucket_le30 (by norm_num)])).1

/-- C9 counterexample: `c9Item` meets every stated hypothesis (10 words,
zero legal/quality/official matches in content and title, unknown
non-government domain, http url) yet, freshly scraped with well-formed
sentences, scores `0.25` and is classified `poor`, not `unrated`. -/
theorem claim_C9_scenarioC_universal_cex :
    c9Item.word_count = 10 ∧
    (∀ p ∈ legalPatterns, patCount p c9Item.content = 0) ∧
    (∀ p ∈ legalPatterns, patCount p c9Item.title = 0) ∧
    (∀ p ∈ qualityIndicators, patCount p c9Item.content = 0) ∧
    patCount structurePat4 c9Item.content = 0 ∧
    patCount officialTermsPat c9Item.content = 0 ∧
    c9Item.domain ∉ credibleDomains ∧
    containsSub ".gov.".data c9Item.domain = false ∧
    ".gov.ir".data.isSuffixOf c9Item.domain = false ∧
    containsSub ".edu.".data c9Item.domain = false ∧
    ".ac.ir".data.isSuffixOf c9Item.domain = false ∧
    "https://".data.isPrefixOf c9Item.url = false ∧
    "http://".data.isPrefixOf c9Item.url = true ∧
    ¬ ((rateItem defaultRatingConfig c9Item 0 "auto").overall_score < 1/5) ∧
    (rateItem defaultRatingConfig c9Item 0 "auto").rating_level ≠ RatingLevelE.unrated := by
  refine ⟨by decide, by decide, by decide, by decide, by decide, by decide, by decide,
    by decide, by decide, by decide, by decide, by decide, by decide, ?_, ?_⟩
  · rw [c9_overall]
    norm_num
  · rw [c9_level]
    decide

/-- C9 (amended): the scenario bound holds once the item is additionally
old (over 90 days, so the freshness score is at most `0.6`), its content
is free of Persian characters and paragraph breaks, shorter than 200
characters, and its metadata is empty: then `overall_score < 0.2` and
the rating level is `unrated`. -/
theorem claim_C9_scenarioC_amended (item : ItemData) (now : ℤ) (e : String)
    (hwc : item.word_count = 10)
    (hl : ∀ p ∈ legalPatterns, patCount p item.content = 0)
    (hlt : ∀ p ∈ legalPatterns, patCount p item.title = 0)
    (hq : ∀ p ∈ qualityIndicators, patCount p item.content = 0)
    (hs4 : patCount structurePat4 item.content = 0)
    (hts : patCount techStructurePat item.content = 0)
    (ho : patCount officialTermsPat item.content = 0)
    (hcd : item.domain ∉ credibleDomains)
    (hgov : containsSub ".gov.".data item.domain = false)
    (hgov2 : ".gov.ir".data.isSuffixOf item.domain = false)
    (hedu : containsSub ".edu.".data item.domain = false)
    (hac : ".ac.ir".data.isSuffixOf item.domain = false)
    (hhttps : "https://".data.isPrefixOf item.url = false)
    (hmeta : item.metaSize = 0)
    (hnn : containsSub ['\n', '\n'] item.content = false)
    (hpb : hasParaBreak item.content = false)
    (hper : persianCount item.content = 0)
    (hclen : item.content.length < 200)
    (hfresh : evalDataFreshness item.timestamp now ≤ 3/5) :
    (rateItem defaultRatingConfig item now e).overall_score < 1/5 ∧
    (rateItem defaultRatingConfig item now e).rating_level = RatingLevelE.unrated := by
  have hcred : evalSourceCredibility item.domain item.url item.metaTitle item.metaSize = 0 :=
    cred_eq_zero _ _ _ _ hcd hgov hgov2 hedu hac hhttps hmeta
  have hcomp : evalContentCompleteness item.content item.title item.word_count = 0 := by
    rw [hwc]
    exact comp_eq_zero _ _ _ (by omega) hs4 hl hq
  have hocr : evalOcrAccuracy item.content item.language ≤ 1/2 := ocr_le_half _ _ hper hpb
  have hrel : evalContentRelevance item.content item.title = 0 := rel_eq_zero _ _ hl hlt ho
  have htech : evalTechnicalQuality item.content item.metaSize = 0 :=
    tech_eq_zero _ _ hts hnn hper (by omega) hclen
  have hocr0 : 0 ≤ evalOcrAccuracy item.content item.language :=
    (evalOcrAccuracy_range _ _).1
  have hfr0 : 0 ≤ evalDataFreshness item.timestamp now := (evalDataFreshness_range _ _).1
  have hraw : (rateItem defaultRatingConfig item now e).rawOverall ≤ 19/100 := by
    rw [rateItem_rawOverall, hcred, hcomp, hrel, htech]
    nlinarith [hocr, hfresh, hocr0, hfr0]
  have hraw2 : (rateItem defaultRatingConfig item now e).rawOverall < 1/5 := by linarith
  constructor
  · rw [rateItem_overall_eq]
    have hr := round3_abs_le ((rateItem defaultRatingConfig item now e).rawOverall)
    rw [abs_le] at hr
    linarith [hr.2]
  · rw [rateItem_level_eq]
    exact determineLevel_default_unrated hraw2

/-- Witness for C9 (amended) at the concrete three-year-old ten-word
item, whose overall score is `0.13`. -/
theorem claim_C9_scenarioC_amended_witness :
    (rateItem defaultRatingConfig c9wItem 100000000 "auto").overall_score < 1/5 ∧
    (rateItem defaultRatingConfig c9wItem 100000000 "auto").rating_level
      = RatingLevelE.unrated :=
  claim_C9_scenarioC_amended c9wItem 100000000 "auto" rfl (by decide) (by decide)
    (by decide) (by decide) (by decide) (by decide) (by decide) (by decide) (by decide)
    (by decide) (by decide) (by decide) rfl (by decide) (by decide) (by decide)
    (by decide) (by rw [c9w_fresh]; norm_num)

/-- C10: `rate_item` returns an `overall_score` and `criteria_scores`
rounded to 3 decimals, yet persists the unrounded overall as the stored
`rating_score` and compares that unrounded value against the 0.01
history epsilon; the returned and stored scores therefore differ by at
most `0.0005`, a bound attained (difference exactly `0.0005`) by the
concrete item `c10Item`. -/
theorem claim_C10_rounded_return_raw_store (item : ItemData) (now : ℤ) (e : String)
    (oldScore : Option ℚ) (hist : List RatingHistoryEntry) :
    (rateItem defaultRatingConfig item now e).overall_score
      = round3 ((rateItem defaultRatingConfig item now e).rawOverall) ∧
    (rateItem defaultRatingConfig item now e).criteria_scores
      = ((rateItem defaultRatingConfig item now e).rawCriteria).map round3 ∧
    (rateItemAndUpdate defaultRatingConfig item now e oldScore hist).2.rating_score
      = (rateItem defaultRatingConfig item now e).rawOverall ∧
    ((rateItemAndUpdate defaultRatingConfig item now e oldScore hist).2.history
      = if 1/100 < |oldScore.getD 0 - (rateItem defaultRatingConfig item now e).rawOverall|
        then hist ++ [⟨item.id, oldScore.getD 0,
              (rateItem defaultRatingConfig item now e).rawOverall,
              "Auto re-evaluation", "auto"⟩]
        else hist) ∧
    |(rateItem defaultRatingConfig item now e).overall_score
      - (rateItem defaultRatingConfig item now e).rawOverall| ≤ 1/2000 ∧
    |(rateItem defaultRatingConfig c10Item 0 "auto").overall_score
      - (rateItem defaultRatingConfig c10Item 0 "auto").rawOverall| = 1/2000 := by
  refine ⟨rfl, rfl, rfl, rfl, ?_, ?_⟩
  · rw [rateItem_overall_eq]
    exact round3_abs_le _
  · rw [c10_overall, c10_raw]
    norm_num
